import Mathlib

/-!
Verification of the bridge-haunch geometry engine against its specification.

The definitions below are shallow embeddings of the Python sources:
input_data.py (dataclasses and BridgeInputs post-construction rewrites),
config_manager.py (ConfigManager serialization), and create_pdf.py
(cross-section generators, deck-profile construction, drawing-coordinate
scaling, and the 3D haunch-volume mesh builder).  Python floats are
modelled as exact rationals except for the girder cross-section generator,
which uses square roots and trigonometric functions and is modelled over
the reals.  Python exceptions are modelled with an explicit error type.
-/

namespace BridgeSpec

/-! ## Error model

ZeroDivisionError and AttributeError are Python built-in exceptions that
the modelled code can actually raise.  The remaining constructors are the
error taxonomy named by the specification (ConfigurationError,
UnsupportedShapeError, DegenerateDomainError); they are present so that
claims about them can be stated.  The source under src/ never raises them.
-/

inductive PyError where
  | zeroDivisionError
  | attributeError (name : String)
  | configurationError
  | unsupportedShapeError
  | degenerateDomainError
deriving DecidableEq

/-! ## input_data.py : dataclasses -/

/-- Embedding of input_data.HeaderInfo. -/
structure HeaderInfo where
  structure_number : String
  route_name : String
  feature_crossed : String
  designer_name : String
  designer_date : String
  reviewer_name : String
  reviewer_date : String
deriving DecidableEq

/-- Embedding of input_data.VerticalCurveData. -/
structure VerticalCurveData where
  sta_VPI : ℚ
  elev_VPI : ℚ
  grade_1 : ℚ
  grade_2 : ℚ
  L_v_curve : ℚ
deriving DecidableEq

/-- Embedding of input_data.SubstructureData. -/
structure SubstructureData where
  sta_CL_sub : List ℚ
deriving DecidableEq

/-- Embedding of input_data.BridgeInfo.  These are exactly the fields the
dataclass declares; in particular there is no brg_thick field. -/
structure BridgeInfo where
  skew : ℚ
  turn_width : ℚ
  deck_width : ℚ
  rdwy_width : ℚ
  PGL_loc : ℚ
  beam_spa : ℚ
  n_beams : ℤ
  rdwy_slope : ℚ
  deck_thick : ℚ
  sacrificial_ws : ℚ
  beam_shape : String
  f_c_beam : ℚ
  f_c_i_beam : ℚ
  rail_shape : String
  staged : String
  stage_start : String
  stg_line_rt : ℚ
  stg_line_lt : ℚ
  ws : ℚ
deriving DecidableEq

/-- Embedding of input_data.DebondConfig. -/
structure DebondConfig where
  row : ℤ
  strands : List ℤ
  lengths : List ℚ
deriving DecidableEq

/-- Embedding of input_data.HarpConfig. -/
structure HarpConfig where
  strands : List ℤ
  harped_depths : List ℚ
  harping_length_factor : ℚ
deriving DecidableEq

/-- Embedding of input_data.SpanConfig. -/
structure SpanConfig where
  straight_strands : List ℤ
  strand_dist_bot : List ℚ
  debond_config : List DebondConfig
  harp_config : HarpConfig
deriving DecidableEq

/-- Embedding of input_data.BridgeInputs (before __post_init__ runs). -/
structure BridgeInputs where
  header : HeaderInfo
  vertical_curve : VerticalCurveData
  substructure : SubstructureData
  bridge_info : BridgeInfo
  span_configs : List SpanConfig
deriving DecidableEq

/-- Embedding of BridgeInputs.__post_init__ (input_data.py lines 81-90):
the three sequential conditional rewrites of bridge_info fields. -/
def postInit (b : BridgeInputs) : BridgeInputs :=
  let bi := b.bridge_info
  let bi := if bi.PGL_loc = 21 ∧ bi.deck_width ≠ 42 then
    { bi with PGL_loc := bi.deck_width / 2 } else bi
  let bi := if bi.stg_line_rt = 20 then
    { bi with stg_line_rt := bi.PGL_loc - 1 } else bi
  let bi := if bi.stg_line_lt = 16 then
    { bi with stg_line_lt := bi.PGL_loc - 5 } else bi
  { b with bridge_info := bi }

/-! ## config_manager.py : serialization -/

/-- Values stored in the JSON configuration dictionary. -/
inductive PyVal where
  | s (v : String)
  | q (v : ℚ)
  | z (v : ℤ)
deriving DecidableEq

/-- Python attribute lookup on a BridgeInfo instance: returns the value for
each field the dataclass actually declares, and none for any other
attribute name (which in Python raises AttributeError). -/
def BridgeInfo.attr (b : BridgeInfo) : String → Option PyVal
  | "skew" => some (.q b.skew)
  | "turn_width" => some (.q b.turn_width)
  | "deck_width" => some (.q b.deck_width)
  | "rdwy_width" => some (.q b.rdwy_width)
  | "PGL_loc" => some (.q b.PGL_loc)
  | "beam_spa" => some (.q b.beam_spa)
  | "n_beams" => some (.z b.n_beams)
  | "rdwy_slope" => some (.q b.rdwy_slope)
  | "deck_thick" => some (.q b.deck_thick)
  | "sacrificial_ws" => some (.q b.sacrificial_ws)
  | "beam_shape" => some (.s b.beam_shape)
  | "f_c_beam" => some (.q b.f_c_beam)
  | "f_c_i_beam" => some (.q b.f_c_i_beam)
  | "rail_shape" => some (.s b.rail_shape)
  | "staged" => some (.s b.staged)
  | "stage_start" => some (.s b.stage_start)
  | "stg_line_rt" => some (.q b.stg_line_rt)
  | "stg_line_lt" => some (.q b.stg_line_lt)
  | "ws" => some (.q b.ws)
  | _ => none

/-- The attribute names ConfigManager._inputs_to_dict reads from
inputs.bridge_info, in source order (config_manager.py lines 62-80). -/
def bridgeInfoDictKeys : List String :=
  ["skew", "deck_width", "rdwy_width", "PGL_loc", "beam_spa", "n_beams",
   "rdwy_slope", "deck_thick", "sacrificial_ws", "turn_width", "brg_thick",
   "beam_shape", "rail_shape", "f_c_beam", "ws", "staged", "stage_start",
   "stg_line_rt", "stg_line_lt"]

/-- One attribute read during serialization; a missing attribute is a
Python AttributeError. -/
def getAttrBI (b : BridgeInfo) (k : String) : Except PyError (String × PyVal) :=
  match b.attr k with
  | some v => Except.ok (k, v)
  | none => Except.error (PyError.attributeError k)

/-- The dictionary ConfigManager._inputs_to_dict builds.  The header,
vertical-curve, substructure and span-config sections read only fields
that exist, so they are copied directly; the bridge_info section is built
by the attribute reads listed in bridgeInfoDictKeys. -/
structure ConfigDict where
  header : HeaderInfo
  vertical_curve : VerticalCurveData
  substructure : SubstructureData
  bridge_info : List (String × PyVal)
  span_configs : List SpanConfig
deriving DecidableEq

/-- Embedding of ConfigManager._inputs_to_dict (config_manager.py lines
39-100).  Building the bridge_info sub-dictionary performs the attribute
reads in source order; the first read of a missing attribute aborts the
whole serialization with an AttributeError, as in Python. -/
def inputs_to_dict (inp : BridgeInputs) : Except PyError ConfigDict :=
  match bridgeInfoDictKeys.mapM (getAttrBI inp.bridge_info) with
  | Except.ok bi =>
      Except.ok { header := inp.header, vertical_curve := inp.vertical_curve,
                  substructure := inp.substructure, bridge_info := bi,
                  span_configs := inp.span_configs }
  | Except.error e => Except.error e

/-! ## create_pdf.py : rail cross-sections (create_rail_cx) -/

/-- Result of create_rail_cx / create_beam_cx: Python returns either two
parallel coordinate lists or, on the fallback branches, the plain scalar
pair (0, 0). -/
inductive RailCx where
  | polyline (x y : List ℚ)
  | scalarPair (x y : ℚ)
deriving DecidableEq

/-- Embedding of create_rail_cx (create_pdf.py lines 199-341): a chain of
string comparisons on the rail shape code; the final else prints a message
and returns the scalar pair (0, 0). -/
def create_rail_cx (rail_shape : String) (ht : ℚ) : RailCx :=
  if rail_shape = "39_SSCR" then
    .polyline [0, 0, 0.75, 8 - 0.75, 8, 10]
              [0, ht - 0.75, ht, ht, ht - 0.75, 0]
  else if rail_shape = "39_OCR" then
    .polyline [0, 0, 0.75, 0, 0, 0.75, 14 - 0.75, 14, 14, 14 - 0.75, 0.75, 10, 10]
              [0, 12 - 0.75, 12, 12 + 0.75, ht - 0.75, ht, ht, ht - 0.75,
               12 + 0.75, 12, 12, 12, 0]
  else if rail_shape = "42_NU_O" then
    .polyline [0, 0, 0.75, 0, 0, 0.75, 8.5 - 0.75, 8.5, 9.5, 14, 14, 10.5, 0.75, 10.5, 10.5]
              [0, 11 - 0.75, 11, 11 + 0.75, ht - 0.75, ht, ht, ht - 0.75,
               ht - 8, ht - 8 - 2, 11 + 1, 11, 11, 11, 0]
  else if rail_shape = "42_NU_C" then
    .polyline [0, 0, 0.75, 8.5 - 0.75, 8.5, 9.5, 14, 14, 10.5, 10.5]
              [0, ht - 0.75, ht, ht, ht - 0.75, ht - 8, ht - 8 - 2, 11 + 1, 11, 0]
  else if rail_shape = "42_NU_M" then
    .polyline [3.5, 3.5, 0, 0, 4.5, 5.5, 5.5 + 0.75, 18.5 - 0.75, 18.5, 19.5, 24, 24, 20.5, 20.5]
              [0, 11, 12, 32, 34, 42 - 0.75, 42, 42, 42 - 0.75, 34, 32, 12, 11, 0]
  else if rail_shape = "34_NU_O" then
    .polyline [0, 0, 0.75, 0, 0, 0.75, 14 - 0.75, 14, 14, 14 - 0.75, 0.75, 10.5, 10.5]
              [0, 11 - 0.75, 11, 11 + 0.75, ht - 0.75, ht, ht, ht - 0.75,
               11 + 0.75, 11, 11, 11, 0]
  else if rail_shape = "34_NU_C" then
    .polyline [0, 0, 0.75, 14 - 0.75, 14, 14, 14 - 0.75, 10.5, 10.5]
              [0, ht - 0.75, ht, ht, ht - 0.75, 11 + 0.75, 11, 11, 0]
  else if rail_shape = "29_NE_O" then
    .polyline [1, 1, 0.75, 0, 0, 0.75, 14 - 0.75, 14, 14, 14 - 0.75, 0.75, 10.5, 10.5]
              [0, 13, 13, 13 + 0.75, ht - 0.75, ht, ht, ht - 0.75,
               13 + 0.75, 13, 13, 13, 0]
  else if rail_shape = "29_NE_C" then
    .polyline [1, 1, 0.75, 0, 0, 0.75, 14 - 0.75, 14, 14, 14 - 0.75, 10.5, 10.5]
              [0, 13, 13, 13 + 0.75, ht - 0.75, ht, ht, ht - 0.75, 13 + 0.75, 13, 13, 0]
  else if rail_shape = "42_NJ" then
    .polyline [0, 0, 0.75, 7 - 0.75, 7, 7, 9, 16, 16]
              [0, ht - 0.75, ht, ht, ht - 0.75, ht - 10, 13, 3, 0]
  else if rail_shape = "32_NJ" then
    .polyline [0, 0, 0.75, 7 - 0.75, 7, 9, 16, 16]
              [0, ht - 0.75, ht, ht, ht - 0.75, 13, 3, 0]
  else
    .scalarPair 0 0

/-- The rail shape codes create_rail_cx recognizes. -/
def registeredRailShapes : List String :=
  ["39_SSCR", "39_OCR", "42_NU_O", "42_NU_C", "42_NU_M", "34_NU_O", "34_NU_C",
   "29_NE_O", "29_NE_C", "42_NJ", "32_NJ"]

/-! ## create_pdf.py : drawing-coordinate scaling (create_plot) -/

/-- Embedding of the scale_x lambda of create_plot (create_pdf.py line
363): an affine map from the station domain onto the destination width.
In Python the operands are floats, so a zero-width domain raises
ZeroDivisionError; that failure is modelled as an explicit error. -/
def scale_x (x_offset min_sta max_sta width station : ℚ) : Except PyError ℚ :=
  if max_sta - min_sta = 0 then Except.error PyError.zeroDivisionError
  else Except.ok (x_offset + (station - min_sta) / (max_sta - min_sta) * width)

/-- The inverse affine map of scale_x, used to state the round-trip
property: it maps a page coordinate back to a station. -/
def scale_x_inv (x_offset min_sta max_sta width X : ℚ) : ℚ :=
  min_sta + (X - x_offset) / width * (max_sta - min_sta)

/-! ## create_pdf.py : haunch surfaces (create_haunch_surfaces) -/

/-- One labeled surface band of BridgeDesign3DVisualizer.create_haunch_surfaces:
station grid, offset grid, and the top and bottom elevation sheets.
Matrices are total maps from (row, column) indices, matching elementwise
numpy arithmetic. -/
structure SurfaceData where
  X : ℕ → ℕ → ℚ
  Y : ℕ → ℕ → ℚ
  Z_top : ℕ → ℕ → ℚ
  Z_bot : ℕ → ℕ → ℚ

/-- The two bands produced by create_haunch_surfaces. -/
structure HaunchSurfaces where
  minimum_haunch : SurfaceData
  variable_haunch : SurfaceData

/-- Embedding of BridgeDesign3DVisualizer.create_haunch_surfaces
(create_pdf.py lines 622-640).  Y tiles the offset row across all
stations; Minimum_Haunch runs from BS_Elev down to Min_Haunch_Elev + 0.0005
and Variable_Haunch from Min_Haunch_Elev - 0.0005 down to TG_Elev. -/
def create_haunch_surfaces (sta_G : ℕ → ℕ → ℚ) (offsets : ℕ → ℚ)
    (BS_Elev Min_Haunch_Elev TG_Elev : ℕ → ℕ → ℚ) : HaunchSurfaces :=
  { minimum_haunch :=
      { X := sta_G, Y := fun _ j => offsets j, Z_top := BS_Elev,
        Z_bot := fun i j => Min_Haunch_Elev i j + 0.0005 },
    variable_haunch :=
      { X := sta_G, Y := fun _ j => offsets j,
        Z_top := fun i j => Min_Haunch_Elev i j - 0.0005, Z_bot := TG_Elev } }

/-! ## create_pdf.py : 3D haunch-volume mesh (plot_haunch_volume) -/

/-- Face kinds emitted by plot_haunch_volume: bottom, top, left side,
right side, and the two span-end cap faces (front/back). -/
inductive FaceKind where
  | bottom
  | top
  | left
  | right
  | cap
deriving DecidableEq

/-- One quadrilateral face: the loop indices (span, beam) under which the
source emitted it, its kind, and its vertex loop in (station, offset,
elevation) coordinates. -/
structure Face where
  kind : FaceKind
  span : ℕ
  beam : ℕ
  verts : List (ℚ × ℚ × ℚ)
deriving DecidableEq

/-- Sum of the per-span sample counts s[0] + ... + s[k-1], the Python
prefix sum int(s[:k].sum()). -/
def sSum (s : ℕ → ℕ) (k : ℕ) : ℕ := ((List.range k).map s).sum

/-- Row where span k starts in the arrays trimmed of the two bearing rows
per span (create_pdf.py line 683). -/
def start_index (s : ℕ → ℕ) (k : ℕ) : ℕ := sSum s k - 2 * k

/-- Row where span k starts in the untrimmed station array, skipping the
bearing row (create_pdf.py line 685). -/
def start_index_pgl (s : ℕ → ℕ) (k : ℕ) : ℕ := sSum s k + 1

/-- Bottom face for sample pair i of beam j in span k (create_pdf.py lines
702-710). -/
def bottomFace (surf : SurfaceData) (s : ℕ → ℕ) (k j i : ℕ) : Face :=
  let b := start_index s k
  let m := 2 * j
  let n := 2 * j + 1
  { kind := .bottom, span := k, beam := j,
    verts :=
      [(surf.X (b + i) m, surf.Y (b + i) m, surf.Z_bot (b + i) m),
       (surf.X (b + i) n, surf.Y (b + i) n, surf.Z_bot (b + i) n),
       (surf.X (b + i + 1) n, surf.Y (b + i + 1) n, surf.Z_bot (b + i + 1) n),
       (surf.X (b + i + 1) m, surf.Y (b + i + 1) m, surf.Z_bot (b + i + 1) m)] }

/-- Top face(s) for sample pair i of beam j in span k (create_pdf.py lines
711-737).  When the left-flange and right-flange offsets of the pair have
opposite sign and the band label is the string Minimum Haunch, two quads
are emitted meeting along the line (station, offset 0, PGL elevation minus
over_deck_t / 12); otherwise a single planar quad is emitted.  sta10 is
the untrimmed station array sta_x_10_ft and vc the vertical-curve
elevation function results.vc_obj.elev. -/
def topFaces (surf : SurfaceData) (s : ℕ → ℕ) (sta10 : ℕ → ℚ) (vc : ℚ → ℚ)
    (over_deck_t : ℚ) (label : String) (k j i : ℕ) : List Face :=
  let b := start_index s k
  let p := start_index_pgl s k
  let m := 2 * j
  let n := 2 * j + 1
  let pgl : ℕ → ℚ × ℚ × ℚ := fun t =>
    (sta10 (p + t), 0, vc (sta10 (p + t)) - over_deck_t / 12)
  if ((0 < surf.Y (b + i) m ∧ surf.Y (b + i) n < 0) ∨
      (surf.Y (b + i) m < 0 ∧ 0 < surf.Y (b + i) n)) ∧ label = "Minimum Haunch" then
    [{ kind := .top, span := k, beam := j,
       verts :=
         [(surf.X (b + i) m, surf.Y (b + i) m, surf.Z_top (b + i) m),
          pgl i, pgl (i + 1),
          (surf.X (b + i + 1) m, surf.Y (b + i + 1) m, surf.Z_top (b + i + 1) m)] },
     { kind := .top, span := k, beam := j,
       verts :=
         [pgl i,
          (surf.X (b + i) n, surf.Y (b + i) n, surf.Z_top (b + i) n),
          (surf.X (b + i + 1) n, surf.Y (b + i + 1) n, surf.Z_top (b + i + 1) n),
          pgl (i + 1)] }]
  else
    [{ kind := .top, span := k, beam := j,
       verts :=
         [(surf.X (b + i) m, surf.Y (b + i) m, surf.Z_top (b + i) m),
          (surf.X (b + i) n, surf.Y (b + i) n, surf.Z_top (b + i) n),
          (surf.X (b + i + 1) n, surf.Y (b + i + 1) n, surf.Z_top (b + i + 1) n),
          (surf.X (b + i + 1) m, surf.Y (b + i + 1) m, surf.Z_top (b + i + 1) m)] }]

/-- Left side face for sample pair i (create_pdf.py lines 738-746). -/
def leftFace (surf : SurfaceData) (s : ℕ → ℕ) (k j i : ℕ) : Face :=
  let b := start_index s k
  let m := 2 * j
  { kind := .left, span := k, beam := j,
    verts :=
      [(surf.X (b + i) m, surf.Y (b + i) m, surf.Z_bot (b + i) m),
       (surf.X (b + i) m, surf.Y (b + i) m, surf.Z_top (b + i) m),
       (surf.X (b + i + 1) m, surf.Y (b + i + 1) m, surf.Z_top (b + i + 1) m),
       (surf.X (b + i + 1) m, surf.Y (b + i + 1) m, surf.Z_bot (b + i + 1) m)] }

/-- Right side face for sample pair i (create_pdf.py lines 747-755). -/
def rightFace (surf : SurfaceData) (s : ℕ → ℕ) (k j i : ℕ) : Face :=
  let b := start_index s k
  let n := 2 * j + 1
  { kind := .right, span := k, beam := j,
    verts :=
      [(surf.X (b + i) n, surf.Y (b + i) n, surf.Z_bot (b + i) n),
       (surf.X (b + i) n, surf.Y (b + i) n, surf.Z_top (b + i) n),
       (surf.X (b + i + 1) n, surf.Y (b + i + 1) n, surf.Z_top (b + i + 1) n),
       (surf.X (b + i + 1) n, surf.Y (b + i + 1) n, surf.Z_bot (b + i + 1) n)] }

/-- Cap face at a retained span end, at trimmed row b + t (t is 0 at the
front, the last retained sample at the back; create_pdf.py lines
757-775). -/
def capFace (surf : SurfaceData) (s : ℕ → ℕ) (k j t : ℕ) : Face :=
  let b := start_index s k
  let m := 2 * j
  let n := 2 * j + 1
  { kind := .cap, span := k, beam := j,
    verts :=
      [(surf.X (b + t) m, surf.Y (b + t) m, surf.Z_bot (b + t) m),
       (surf.X (b + t) m, surf.Y (b + t) m, surf.Z_top (b + t) m),
       (surf.X (b + t) n, surf.Y (b + t) n, surf.Z_top (b + t) n),
       (surf.X (b + t) n, surf.Y (b + t) n, surf.Z_bot (b + t) n)] }

/-- All faces one beam of one span contributes: the inner loop runs over
the s[k] - 3 consecutive sample pairs of the retained rows, emitting
bottom, top (one quad or a split pair), left and right faces, then the
front cap at retained row 0 and the back cap at retained row s[k] - 3
(the Python index -1 of a slice of length s[k] - 2). -/
def girderFaces (surf : SurfaceData) (s : ℕ → ℕ) (sta10 : ℕ → ℚ) (vc : ℚ → ℚ)
    (over_deck_t : ℚ) (label : String) (k j : ℕ) : List Face :=
  ((List.range (s k - 3)).flatMap fun i =>
    bottomFace surf s k j i ::
      (topFaces surf s sta10 vc over_deck_t label k j i ++
        [leftFace surf s k j i, rightFace surf s k j i])) ++
    [capFace surf s k j 0, capFace surf s k j (s k - 3)]

/-- Embedding of BridgeDesign3DVisualizer.plot_haunch_volume (create_pdf.py
lines 674-775) as the list of faces it adds to the axes, for one labeled
surface band: the double loop over spans k and beams j. -/
def plot_haunch_volume (surf : SurfaceData) (ns n_beams : ℕ) (s : ℕ → ℕ)
    (sta10 : ℕ → ℚ) (vc : ℚ → ℚ) (over_deck_t : ℚ) (label : String) : List Face :=
  (List.range ns).flatMap fun k =>
    (List.range n_beams).flatMap fun j =>
      girderFaces surf s sta10 vc over_deck_t label k j

/-- Modelled from the spec: the parabolic vertical-curve evaluator
VerticalCurveModel.elev of the structural-analysis module
bridge_haunch_calculator, which is not under src/.  Section 4.1 of the
specification: tangent on grade 1 before VPC, the parabola between VPC and
VPT, tangent on grade 2 after VPT. -/
def vcElev (sta_VPI elev_VPI g1 g2 L sta : ℚ) : ℚ :=
  let staVPC := sta_VPI - L / 2
  let staVPT := sta_VPI + L / 2
  let elevVPC := elev_VPI - g1 / 100 * (L / 2)
  let r := (g2 - g1) / (100 * L)
  if sta ≤ staVPC then elevVPC + g1 / 100 * (sta - staVPC)
  else if staVPT ≤ sta then
    (elevVPC + g1 / 100 * L + r / 2 * L ^ 2) + g2 / 100 * (sta - staVPT)
  else elevVPC + g1 / 100 * (sta - staVPC) + r / 2 * (sta - staVPC) ^ 2

/-! ## create_pdf.py : deck bottom profile (profile_curve_pdf / deck_section)

The deck-bottom polyline construction is textually identical in
profile_curve_pdf (lines 909-931) and deck_section (lines 1012-1032), with
x_beam_loc respectively beam_strt both equal to the beam start offset
cant_len + i * beam_spa - tf_width / 2.  Points are emitted in page
coordinates x_begin + cx_scale * X and y_begin_deck + cx_scale * Y. -/

/-- Points the deck-bottom loop emits for beam i (create_pdf.py lines
911-930).  The branch on x_beam_loc < PGL_loc draws the flat notch under
the flange one inch below the near-edge elevation; when the flange far
edge passes PGL_loc the wall at the far edge rises to the elevation
(PGL_loc - tf_width / 2) * 12 * rdwy_slope, otherwise the profile
continues on the near-side slope for the clipped width x_under_deck. -/
def deck_bottom_beam_pts (x_begin y_begin_deck cx_scale cant_len beam_spa
    tf_width PGL_loc rdwy_slope : ℚ) (i : ℕ) : List (ℚ × ℚ) :=
  let xbl := cant_len + i * beam_spa - tf_width / 2
  if xbl < PGL_loc then
    let x_under := min (PGL_loc - xbl - tf_width) (beam_spa - tf_width)
    [(x_begin + cx_scale * (xbl * 12),
      y_begin_deck + cx_scale * (xbl * 12 * rdwy_slope)),
     (x_begin + cx_scale * (xbl * 12),
      y_begin_deck + cx_scale * (xbl * 12 * rdwy_slope - 1)),
     (x_begin + cx_scale * ((xbl + tf_width) * 12),
      y_begin_deck + cx_scale * (xbl * 12 * rdwy_slope - 1))] ++
    (if PGL_loc < xbl + tf_width then
      [(x_begin + cx_scale * ((xbl + tf_width) * 12),
        y_begin_deck + cx_scale * ((PGL_loc - tf_width / 2) * 12 * rdwy_slope))]
     else
      [(x_begin + cx_scale * ((xbl + tf_width) * 12),
        y_begin_deck + cx_scale * ((xbl + tf_width) * 12 * rdwy_slope)),
       (x_begin + cx_scale * ((xbl + tf_width + x_under) * 12),
        y_begin_deck + cx_scale * ((xbl + tf_width + x_under) * 12 * rdwy_slope))])
  else
    let x_under := min (xbl - PGL_loc) (beam_spa - tf_width)
    [(x_begin + cx_scale * ((xbl - x_under) * 12),
      y_begin_deck + cx_scale * ((PGL_loc - (xbl - PGL_loc - x_under)) * 12 * rdwy_slope)),
     (x_begin + cx_scale * (xbl * 12),
      y_begin_deck + cx_scale * ((PGL_loc - (xbl - PGL_loc)) * 12 * rdwy_slope)),
     (x_begin + cx_scale * (xbl * 12),
      y_begin_deck + cx_scale * ((PGL_loc - (xbl - PGL_loc) - tf_width) * 12 * rdwy_slope - 1)),
     (x_begin + cx_scale * ((xbl + tf_width) * 12),
      y_begin_deck + cx_scale * ((PGL_loc - (xbl - PGL_loc) - tf_width) * 12 * rdwy_slope - 1)),
     (x_begin + cx_scale * ((xbl + tf_width) * 12),
      y_begin_deck + cx_scale * ((PGL_loc - (xbl - PGL_loc + tf_width)) * 12 * rdwy_slope))]

/-- The full deck-bottom polyline: the start point at the left deck edge,
the cantilever point, the per-beam points, and the right deck edge point
(create_pdf.py lines 907-932). -/
def deck_bottom_profile (x_begin y_begin_deck cx_scale cant_len beam_spa
    tf_width PGL_loc rdwy_slope deck_width : ℚ) (n_beams : ℕ) : List (ℚ × ℚ) :=
  [(x_begin, y_begin_deck),
   (x_begin + cx_scale * ((cant_len - tf_width / 2) * 12),
    y_begin_deck + cx_scale * ((cant_len - tf_width / 2) * 12 * rdwy_slope))] ++
  ((List.range n_beams).flatMap fun i =>
    deck_bottom_beam_pts x_begin y_begin_deck cx_scale cant_len beam_spa
      tf_width PGL_loc rdwy_slope i) ++
  [(x_begin + cx_scale * (deck_width * 12),
    y_begin_deck + cx_scale * ((PGL_loc - (deck_width - PGL_loc)) * 12 * rdwy_slope))]

/-! ## create_pdf.py : NU girder cross-section (create_beam_cx)

The NU branch of create_beam_cx (lines 67-197) composes straight segments
with circular fillet arcs sampled at 50 points each, using arctan, tan,
cos, sin and sqrt; it is modelled over the reals.  beam_ht is
results.beam_rail_obj.b_height and tf is the top-flange width in inches
(results.beam_rail_obj.tf_width * 12). -/

/-- Bottom-flange slope angle theta_bot (create_pdf.py line 74). -/
noncomputable def theta_bot : ℝ := Real.arctan (5.5 / (38.375 / 2 - (5 + 15 / 16) / 2))

/-- Top-flange slope angle theta_top (create_pdf.py line 75). -/
noncomputable def theta_top : ℝ := Real.arctan (1.75 / (48.25 / 2 - (5 + 15 / 16) / 2))

/-- Stem fillet radius (create_pdf.py line 76). -/
noncomputable def R_stem : ℝ := 7.875

/-- Flange fillet radius (create_pdf.py line 77). -/
noncomputable def R_flng : ℝ := 2

/-- Tangent offset at the top-flange fillet (create_pdf.py line 78). -/
noncomputable def d_top_flng : ℝ := R_flng * Real.tan (Real.pi / 4 - theta_top / 2)

/-- Tangent offset at the bottom-flange fillet (create_pdf.py line 79). -/
noncomputable def d_bot_flng : ℝ := R_flng * Real.tan (Real.pi / 4 - theta_bot / 2)

/-- Tangent offset at the top stem fillet (create_pdf.py line 80). -/
noncomputable def d_top_stem : ℝ := R_stem * Real.tan (Real.pi / 4 - theta_top / 2)

/-- Tangent offset at the bottom stem fillet (create_pdf.py line 81). -/
noncomputable def d_bot_stem : ℝ := R_stem * Real.tan (Real.pi / 4 - theta_bot / 2)

/-- Bottom flange width (create_pdf.py line 82). -/
noncomputable def bf_width : ℝ := 38.375

/-- Web thickness (create_pdf.py line 83). -/
noncomputable def thick_w : ℝ := 5 + 15 / 16

/-- Chamfer size (create_pdf.py line 84). -/
noncomputable def champfer : ℝ := 0.75

/-- Value i of np.linspace(a, b, 50). -/
noncomputable def linspace50 (a b : ℝ) (i : ℕ) : ℝ := a + i * (b - a) / 49

/-- First appended point (create_pdf.py line 90). -/
noncomputable def nu_x0 (tf : ℝ) : ℝ := (tf - bf_width - champfer * 2) / 2

/-- Second appended point x-coordinate, after the chamfer (line 91). -/
noncomputable def nu_x1 (tf : ℝ) : ℝ := nu_x0 tf - champfer

/-- Curve at the bottom-left flange edge (create_pdf.py lines 94-104). -/
noncomputable def arc_bot_lt_flng (tf : ℝ) : List (ℝ × ℝ) :=
  (List.range 50).map fun i =>
    let x := linspace50 (nu_x1 tf) (nu_x1 tf + d_bot_flng * Real.cos theta_bot) i
    (x, (5 + 5 / 16 - d_bot_flng) +
      Real.sqrt (R_flng ^ 2 - (R_flng - (x - nu_x1 tf)) ^ 2))

/-- Curve at the bottom-left of the stem (create_pdf.py lines 107-115). -/
noncomputable def arc_bot_lt_stem (tf : ℝ) : List (ℝ × ℝ) :=
  (List.range 50).map fun i =>
    let xce := tf / 2 - thick_w / 2
    let x := linspace50 (xce - d_bot_stem * Real.cos theta_bot) xce i
    (x, (5.5 + 5 + 5 / 16 + d_bot_stem) -
      Real.sqrt (R_stem ^ 2 - (R_stem - (xce - x)) ^ 2))

/-- Curve at the top-left of the stem (create_pdf.py lines 118-127). -/
noncomputable def arc_top_lt_stem (ht tf : ℝ) : List (ℝ × ℝ) :=
  (List.range 50).map fun i =>
    let xcs := tf / 2 - thick_w / 2
    let x := linspace50 xcs (xcs - d_top_stem * Real.cos theta_top) i
    (x, (ht - 2 - 9 / 16 - 1.75 - d_top_stem) +
      Real.sqrt (R_stem ^ 2 - (R_stem - (xcs - x)) ^ 2))

/-- Curve at the top-left flange edge (create_pdf.py lines 130-138). -/
noncomputable def arc_top_lt_flng (ht : ℝ) : List (ℝ × ℝ) :=
  (List.range 50).map fun i =>
    let x := linspace50 (d_top_flng * Real.cos theta_top) 0 i
    (x, (ht - (2 + 9 / 16 - d_top_flng)) -
      Real.sqrt (R_flng ^ 2 - (R_flng - (x - 0)) ^ 2))

/-- Curve at the top-right flange edge (create_pdf.py lines 145-153). -/
noncomputable def arc_top_rt_flng (ht tf : ℝ) : List (ℝ × ℝ) :=
  (List.range 50).map fun i =>
    let x := linspace50 tf (tf - d_top_flng * Real.cos theta_top) i
    (x, (ht - (2 + 9 / 16 - d_top_flng)) -
      Real.sqrt (R_flng ^ 2 - (R_flng - (tf - x)) ^ 2))

/-- Curve at the top-right of the stem (create_pdf.py lines 156-164). -/
noncomputable def arc_top_rt_stem (ht tf : ℝ) : List (ℝ × ℝ) :=
  (List.range 50).map fun i =>
    let xce := tf / 2 + thick_w / 2
    let x := linspace50 (xce + d_top_stem * Real.cos theta_top) xce i
    (x, (ht - (2 + 9 / 16 + 1.75 + d_top_stem)) +
      Real.sqrt (R_stem ^ 2 - (R_stem - (x - xce)) ^ 2))

/-- Curve at the bottom-right of the stem (create_pdf.py lines 167-175). -/
noncomputable def arc_bot_rt_stem (tf : ℝ) : List (ℝ × ℝ) :=
  (List.range 50).map fun i =>
    let xcs := tf / 2 + thick_w / 2
    let x := linspace50 xcs (xcs + d_bot_stem * Real.cos theta_bot) i
    (x, (5.5 + 5 + 5 / 16 + d_bot_stem) -
      Real.sqrt (R_stem ^ 2 - (R_stem - (x - xcs)) ^ 2))

/-- Curve at the bottom-right flange edge (create_pdf.py lines 178-186). -/
noncomputable def arc_bot_rt_flng (tf : ℝ) : List (ℝ × ℝ) :=
  (List.range 50).map fun i =>
    let xce := tf / 2 + bf_width / 2
    let x := linspace50 (xce - d_bot_flng * Real.cos theta_bot) xce i
    (x, (5 + 5 / 16 - d_bot_flng) +
      Real.sqrt (R_flng ^ 2 - (R_flng - (xce - x)) ^ 2))

/-- The full NU cross-section polyline of create_beam_cx (create_pdf.py
lines 87-191), as the zipped (x, y) list the code appends in order:
start and chamfer, the four left-side fillet arcs with their lead-in
point, the flat top, the four right-side fillet arcs, and the closing
chamfer back to the start point. -/
noncomputable def create_beam_cx_NU (ht tf : ℝ) : List (ℝ × ℝ) :=
  [(nu_x0 tf, 0), (nu_x1 tf, 0 + champfer),
   (nu_x1 tf, 5 + 5 / 16 - d_bot_flng)] ++
  arc_bot_lt_flng tf ++ arc_bot_lt_stem tf ++ arc_top_lt_stem ht tf ++
  arc_top_lt_flng ht ++
  [(0, ht), (tf, ht)] ++
  arc_top_rt_flng ht tf ++ arc_top_rt_stem ht tf ++ arc_bot_rt_stem tf ++
  arc_bot_rt_flng tf ++
  [(tf / 2 + bf_width / 2, champfer), (tf / 2 + bf_width / 2 - champfer, 0),
   (nu_x0 tf, 0)]

/-- Result of create_beam_cx over the reals: the NU branch returns the
polyline, the IT branch prints a message and returns the scalar pair
(0, 0), and if neither flag is set the locals x, y are never assigned and
the return raises UnboundLocalError. -/
inductive BeamCx where
  | polyline (pts : List (ℝ × ℝ))
  | scalarPair (x y : ℝ)
  | unboundLocal

/-- Embedding of the dispatch of create_beam_cx (create_pdf.py lines
67-197) on the beam_rail_obj flags. -/
noncomputable def create_beam_cx (is_NU is_IT : Bool) (beam_ht tf : ℝ) : BeamCx :=
  if is_NU then .polyline (create_beam_cx_NU beam_ht tf)
  else if is_IT then .scalarPair 0 0
  else .unboundLocal

/-! ## Theorems -/

/-- C4: for every sample point, the MinimumHaunch band spans from the
bearing-seat elevation down to the minimum-haunch elevation + 0.0005 ft,
the VariableHaunch band spans from the minimum-haunch elevation
- 0.0005 ft down to the top-of-girder elevation, and the two facing
boundaries are always separated by exactly 0.001 ft, hence never
coincident. -/
theorem haunch_bands_separated (sta_G : ℕ → ℕ → ℚ) (offsets : ℕ → ℚ)
    (BS_Elev Min_Haunch_Elev TG_Elev : ℕ → ℕ → ℚ) (i j : ℕ) :
    (create_haunch_surfaces sta_G offsets BS_Elev Min_Haunch_Elev
        TG_Elev).minimum_haunch.Z_top i j = BS_Elev i j ∧
    (create_haunch_surfaces sta_G offsets BS_Elev Min_Haunch_Elev
        TG_Elev).minimum_haunch.Z_bot i j = Min_Haunch_Elev i j + 0.0005 ∧
    (create_haunch_surfaces sta_G offsets BS_Elev Min_Haunch_Elev
        TG_Elev).variable_haunch.Z_top i j = Min_Haunch_Elev i j - 0.0005 ∧
    (create_haunch_surfaces sta_G offsets BS_Elev Min_Haunch_Elev
        TG_Elev).variable_haunch.Z_bot i j = TG_Elev i j ∧
    (create_haunch_surfaces sta_G offsets BS_Elev Min_Haunch_Elev
        TG_Elev).minimum_haunch.Z_bot i j -
      (create_haunch_surfaces sta_G offsets BS_Elev Min_Haunch_Elev
        TG_Elev).variable_haunch.Z_top i j = 0.001 ∧
    (create_haunch_surfaces sta_G offsets BS_Elev Min_Haunch_Elev
        TG_Elev).minimum_haunch.Z_bot i j ≠
      (create_haunch_surfaces sta_G offsets BS_Elev Min_Haunch_Elev
        TG_Elev).variable_haunch.Z_top i j := by
  refine ⟨rfl, rfl, rfl, rfl, by norm_num [create_haunch_surfaces], ?_⟩
  intro h
  simp only [create_haunch_surfaces] at h
  linarith [h]

/-- Characterization of the PGL_loc field after __post_init__: the later
staging-line rewrites leave it unchanged. -/
theorem postInit_PGL (b : BridgeInputs) :
    (postInit b).bridge_info.PGL_loc =
      if b.bridge_info.PGL_loc = 21 ∧ b.bridge_info.deck_width ≠ 42 then
        b.bridge_info.deck_width / 2 else b.bridge_info.PGL_loc := by
  unfold postInit
  by_cases h1 : b.bridge_info.PGL_loc = 21 ∧ b.bridge_info.deck_width ≠ 42 <;>
    by_cases h2 : b.bridge_info.stg_line_rt = 20 <;>
      by_cases h3 : b.bridge_info.stg_line_lt = 16 <;>
        simp [h1, h2, h3]

/-- Characterization of the stg_line_rt field after __post_init__: a
supplied value of 20 is replaced by the already rewritten PGL_loc - 1. -/
theorem postInit_rt (b : BridgeInputs) :
    (postInit b).bridge_info.stg_line_rt =
      if b.bridge_info.stg_line_rt = 20 then
        (postInit b).bridge_info.PGL_loc - 1
      else b.bridge_info.stg_line_rt := by
  rw [postInit_PGL]
  unfold postInit
  by_cases h1 : b.bridge_info.PGL_loc = 21 ∧ b.bridge_info.deck_width ≠ 42 <;>
    by_cases h2 : b.bridge_info.stg_line_rt = 20 <;>
      by_cases h3 : b.bridge_info.stg_line_lt = 16 <;>
        simp [h1, h2, h3]

/-- Characterization of the stg_line_lt field after __post_init__: a
supplied value of 16 is replaced by the already rewritten PGL_loc - 5. -/
theorem postInit_lt (b : BridgeInputs) :
    (postInit b).bridge_info.stg_line_lt =
      if b.bridge_info.stg_line_lt = 16 then
        (postInit b).bridge_info.PGL_loc - 5
      else b.bridge_info.stg_line_lt := by
  rw [postInit_PGL]
  unfold postInit
  by_cases h1 : b.bridge_info.PGL_loc = 21 ∧ b.bridge_info.deck_width ≠ 42 <;>
    by_cases h2 : b.bridge_info.stg_line_rt = 20 <;>
      by_cases h3 : b.bridge_info.stg_line_lt = 16 <;>
        simp [h1, h2, h3]

/-- C9: BridgeInputs.__post_init__ silently rewrites user-supplied fields:
PGL_loc equal to 21 with deck_width different from 42 becomes
deck_width / 2 (hence is no longer 21), stg_line_rt equal to 20 becomes
the final PGL_loc - 1, and stg_line_lt equal to 16 becomes the final
PGL_loc - 5, so those exact field values are not preserved across
construction. -/
theorem postInit_rewrites (b : BridgeInputs) :
    (b.bridge_info.PGL_loc = 21 ∧ b.bridge_info.deck_width ≠ 42 →
      (postInit b).bridge_info.PGL_loc = b.bridge_info.deck_width / 2 ∧
      (postInit b).bridge_info.PGL_loc ≠ 21) ∧
    (b.bridge_info.stg_line_rt = 20 →
      (postInit b).bridge_info.stg_line_rt =
        (postInit b).bridge_info.PGL_loc - 1) ∧
    (b.bridge_info.stg_line_lt = 16 →
      (postInit b).bridge_info.stg_line_lt =
        (postInit b).bridge_info.PGL_loc - 5) := by
  refine ⟨fun h => ?_, fun h => ?_, fun h => ?_⟩
  · rw [postInit_PGL, if_pos h]
    refine ⟨rfl, fun hEq => h.2 ?_⟩
    linarith
  · rw [postInit_rt, if_pos h]
  · rw [postInit_lt, if_pos h]

/-- Concrete input with PGL_loc 21, deck_width 40, stg_line_rt 20 and
stg_line_lt 16, used to witness the post-construction rewrites. -/
def exInputs : BridgeInputs :=
  { header := { structure_number := "S080 26369", route_name := "L-10B",
                feature_crossed := "I-80", designer_name := "AML",
                designer_date := "2025", reviewer_name := "TBD",
                reviewer_date := "TBD" },
    vertical_curve := { sta_VPI := 11510, elev_VPI := 2242.5, grade_1 := 4.92,
                        grade_2 := -5.18, L_v_curve := 845 },
    substructure := { sta_CL_sub := [11376, 11500, 11624] },
    bridge_info := { skew := 0, turn_width := 3, deck_width := 40,
                     rdwy_width := 38, PGL_loc := 21, beam_spa := 8.75,
                     n_beams := 5, rdwy_slope := 0.02, deck_thick := 7.5,
                     sacrificial_ws := 0.5, beam_shape := "NU53",
                     f_c_beam := 10, f_c_i_beam := 7.5,
                     rail_shape := "39_SSCR", staged := "yes",
                     stage_start := "left", stg_line_rt := 20,
                     stg_line_lt := 16, ws := 0.035 },
    span_configs := [] }

/-- Witness for the post-construction rewrites: on exInputs the rewritten
PGL_loc is 20 = 40 / 2 rather than the supplied 21, and the staging lines
follow the rewritten PGL_loc. -/
theorem postInit_rewrites_witness :
    (postInit exInputs).bridge_info.PGL_loc = 20 ∧
    (postInit exInputs).bridge_info.stg_line_rt = 19 ∧
    (postInit exInputs).bridge_info.stg_line_lt = 15 := by
  obtain ⟨h1, h2, h3⟩ := postInit_rewrites exInputs
  have hp := h1 ⟨by decide, by decide⟩
  have hr := h2 (by decide)
  have hl := h3 (by decide)
  have hv : (postInit exInputs).bridge_info.PGL_loc = 20 := by
    rw [hp.1]; norm_num [exInputs]
  exact ⟨hv, by rw [hr, hv]; norm_num, by rw [hl, hv]; norm_num⟩

/-- C10: serialization is broken for every BridgeInputs value:
ConfigManager._inputs_to_dict reads inputs.bridge_info.brg_thick, an
attribute the BridgeInfo dataclass does not declare, so serialization
always raises AttributeError and never produces a dictionary; the
save/load round-trip therefore cannot return an equal BridgeInputs. -/
theorem inputs_to_dict_attribute_error (inp : BridgeInputs) :
    inputs_to_dict inp = Except.error (PyError.attributeError "brg_thick") ∧
    ∀ d : ConfigDict, inputs_to_dict inp ≠ Except.ok d := by
  refine ⟨rfl, fun d h => ?_⟩
  rw [show inputs_to_dict inp =
    Except.error (PyError.attributeError "brg_thick") from rfl] at h
  exact Except.noConfusion h

/-- C7 counterexample: the shape code XX is not registered, yet
create_rail_cx returns the degenerate scalar pair (0, 0) instead of
failing with an UnsupportedShapeError. -/
theorem create_rail_cx_unregistered_cex :
    "XX" ∉ registeredRailShapes ∧
    create_rail_cx "XX" 39 = RailCx.scalarPair 0 0 := by
  exact ⟨by decide, rfl⟩

/-- C7 amended: requesting an unregistered rail shape code returns the
degenerate scalar pair (0, 0) after printing a message, and the IT branch
of create_beam_cx likewise returns (0, 0); no UnsupportedShapeError is
raised anywhere. -/
theorem unregistered_shape_returns_zero (shape : String) (ht : ℚ)
    (h : shape ∉ registeredRailShapes) :
    create_rail_cx shape ht = RailCx.scalarPair 0 0 ∧
    ∀ bh tf : ℝ, create_beam_cx false true bh tf = BeamCx.scalarPair 0 0 := by
  constructor
  · simp only [registeredRailShapes, List.mem_cons, List.not_mem_nil, or_false,
      not_or] at h
    obtain ⟨h1, h2, h3, h4, h5, h6, h7, h8, h9, h10, h11⟩ := h
    simp [create_rail_cx, h1, h2, h3, h4, h5, h6, h7, h8, h9, h10, h11]
  · intro bh tf
    simp [create_beam_cx]

/-- Witness for the unregistered-shape behavior at the concrete shape code
FOO and rail height 40. -/
theorem unregistered_shape_returns_zero_witness :
    create_rail_cx "FOO" 40 = RailCx.scalarPair 0 0 ∧
    ∀ bh tf : ℝ, create_beam_cx false true bh tf = BeamCx.scalarPair 0 0 :=
  unregistered_shape_returns_zero "FOO" 40 (by decide)

/-- C8 counterexample: on a zero-width station domain the scaling lambda
divides by zero, which in Python raises ZeroDivisionError; it does not
fail with the DegenerateDomainError the claim names. -/
theorem scale_x_degenerate_cex :
    scale_x 36 5 5 100 5 = Except.error PyError.zeroDivisionError ∧
    (Except.error PyError.zeroDivisionError : Except PyError ℚ) ≠
      Except.error PyError.degenerateDomainError := by
  refine ⟨by norm_num [scale_x], fun h => ?_⟩
  injection h with h2
  exact PyError.noConfusion h2

/-- C8 amended: a zero-width domain makes the scaling lambda raise a bare
ZeroDivisionError (no DegenerateDomainError exists in the program); on a
non-degenerate domain with nonzero destination width, mapping a point
forward and applying the inverse affine map recovers the original point
exactly. -/
theorem scale_x_zero_div_and_roundtrip :
    (∀ x0 mn w sta : ℚ,
      scale_x x0 mn mn w sta = Except.error PyError.zeroDivisionError) ∧
    (∀ x0 mn mx w sta : ℚ, mx ≠ mn → w ≠ 0 →
      scale_x x0 mn mx w sta =
        Except.ok (x0 + (sta - mn) / (mx - mn) * w) ∧
      scale_x_inv x0 mn mx w (x0 + (sta - mn) / (mx - mn) * w) = sta) := by
  constructor
  · intro x0 mn w sta
    simp [scale_x]
  · intro x0 mn mx w sta hd hw
    have hne : mx - mn ≠ 0 := sub_ne_zero.mpr hd
    refine ⟨by simp [scale_x, hne], ?_⟩
    unfold scale_x_inv
    field_simp
    ring

/-- Witness for the mapper round-trip on the concrete domain 0..100 mapped
to width 50 at origin 10, station 30. -/
theorem scale_x_roundtrip_witness :
    scale_x 10 0 100 50 30 =
      Except.ok (10 + (30 - 0) / (100 - 0) * 50) ∧
    scale_x_inv 10 0 100 50 (10 + (30 - 0) / (100 - 0) * 50) = 30 :=
  scale_x_zero_div_and_roundtrip.2 10 0 100 50 30 (by norm_num) (by norm_num)

/-- Synthetic single-span, single-girder surface band whose flange offsets
straddle zero: the left flange sits at offset -2 and the right flange at
offset 3. -/
def c1Surf : SurfaceData :=
  { X := fun i _ => (i : ℚ) * 10,
    Y := fun _ j => if j = 0 then -2 else 3,
    Z_top := fun _ _ => 50,
    Z_bot := fun _ _ => 40 }

/-- Sample count per span for the straddling dataset: 5 samples. -/
def c1s : ℕ → ℕ := fun _ => 5

/-- Untrimmed station array for the straddling dataset. -/
def c1sta : ℕ → ℚ := fun i => (i : ℚ) * 10

/-- Linear stand-in for the vertical-curve elevation lookup. -/
def c1vc : ℚ → ℚ := fun sta => 100 + sta / 100

/-- Over-deck thickness, inches. -/
def c1odt : ℚ := 9

/-- C1 counterexample: on a dataset whose left and right flange offsets
have opposite sign, the VariableHaunch run emits one planar top quad per
sample pair (two intervals, two top faces in all) and no top-face vertex
lies at offset 0, contradicting the claim that the VariableHaunch top
face is emitted as two quads meeting along the offset-0 midline.  The
split branch of the source fires only for the Minimum Haunch label. -/
theorem variable_top_not_split_cex :
    (c1Surf.Y 1 0 < 0 ∧ 0 < c1Surf.Y 1 1) ∧
    ((plot_haunch_volume c1Surf 1 1 c1s c1sta c1vc c1odt
        "Variable Haunch").filter fun f => f.kind = FaceKind.top).length = 2 ∧
    ∀ f ∈ (plot_haunch_volume c1Surf 1 1 c1s c1sta c1vc c1odt
        "Variable Haunch").filter fun f => f.kind = FaceKind.top,
      ∀ v ∈ f.verts, v.2.1 ≠ 0 := by decide

/-- C1 amended: the crossing rule applies to the Minimum Haunch band (the
band between bearing-seat elevation and minimum-haunch elevation), not to
the VariableHaunch band.  When the left-flange and right-flange offsets of
a sample pair have opposite sign, the top face of the Minimum Haunch run
is emitted as two quadrilaterals meeting along the line at offset 0 whose
elevation at each station is the vertical-curve elevation minus the
over-deck thickness over 12, both halves sharing those midline vertices
exactly; non-straddling pairs and every other band label get one planar
quad. -/
theorem minimum_top_split (surf : SurfaceData) (s : ℕ → ℕ) (sta10 : ℕ → ℚ)
    (vc : ℚ → ℚ) (odt : ℚ) (k j i : ℕ) :
    (((0 < surf.Y (start_index s k + i) (2 * j) ∧
        surf.Y (start_index s k + i) (2 * j + 1) < 0) ∨
      (surf.Y (start_index s k + i) (2 * j) < 0 ∧
        0 < surf.Y (start_index s k + i) (2 * j + 1))) →
      topFaces surf s sta10 vc odt "Minimum Haunch" k j i =
        [{ kind := .top, span := k, beam := j,
           verts :=
             [(surf.X (start_index s k + i) (2 * j),
               surf.Y (start_index s k + i) (2 * j),
               surf.Z_top (start_index s k + i) (2 * j)),
              (sta10 (start_index_pgl s k + i), 0,
               vc (sta10 (start_index_pgl s k + i)) - odt / 12),
              (sta10 (start_index_pgl s k + i + 1), 0,
               vc (sta10 (start_index_pgl s k + i + 1)) - odt / 12),
              (surf.X (start_index s k + i + 1) (2 * j),
               surf.Y (start_index s k + i + 1) (2 * j),
               surf.Z_top (start_index s k + i + 1) (2 * j))] },
         { kind := .top, span := k, beam := j,
           verts :=
             [(sta10 (start_index_pgl s k + i), 0,
               vc (sta10 (start_index_pgl s k + i)) - odt / 12),
              (surf.X (start_index s k + i) (2 * j + 1),
               surf.Y (start_index s k + i) (2 * j + 1),
               surf.Z_top (start_index s k + i) (2 * j + 1)),
              (surf.X (start_index s k + i + 1) (2 * j + 1),
               surf.Y (start_index s k + i + 1) (2 * j + 1),
               surf.Z_top (start_index s k + i + 1) (2 * j + 1)),
              (sta10 (start_index_pgl s k + i + 1), 0,
               vc (sta10 (start_index_pgl s k + i + 1)) - odt / 12)] }]) ∧
    (¬ ((0 < surf.Y (start_index s k + i) (2 * j) ∧
          surf.Y (start_index s k + i) (2 * j + 1) < 0) ∨
        (surf.Y (start_index s k + i) (2 * j) < 0 ∧
          0 < surf.Y (start_index s k + i) (2 * j + 1))) →
      topFaces surf s sta10 vc odt "Minimum Haunch" k j i =
        [{ kind := .top, span := k, beam := j,
           verts :=
             [(surf.X (start_index s k + i) (2 * j),
               surf.Y (start_index s k + i) (2 * j),
               surf.Z_top (start_index s k + i) (2 * j)),
              (surf.X (start_index s k + i) (2 * j + 1),
               surf.Y (start_index s k + i) (2 * j + 1),
               surf.Z_top (start_index s k + i) (2 * j + 1)),
              (surf.X (start_index s k + i + 1) (2 * j + 1),
               surf.Y (start_index s k + i + 1) (2 * j + 1),
               surf.Z_top (start_index s k + i + 1) (2 * j + 1)),
              (surf.X (start_index s k + i + 1) (2 * j),
               surf.Y (start_index s k + i + 1) (2 * j),
               surf.Z_top (start_index s k + i + 1) (2 * j))] }]) ∧
    (∀ label : String, label ≠ "Minimum Haunch" →
      topFaces surf s sta10 vc odt label k j i =
        [{ kind := .top, span := k, beam := j,
           verts :=
             [(surf.X (start_index s k + i) (2 * j),
               surf.Y (start_index s k + i) (2 * j),
               surf.Z_top (start_index s k + i) (2 * j)),
              (surf.X (start_index s k + i) (2 * j + 1),
               surf.Y (start_index s k + i) (2 * j + 1),
               surf.Z_top (start_index s k + i) (2 * j + 1)),
              (surf.X (start_index s k + i + 1) (2 * j + 1),
               surf.Y (start_index s k + i + 1) (2 * j + 1),
               surf.Z_top (start_index s k + i + 1) (2 * j + 1)),
              (surf.X (start_index s k + i + 1) (2 * j),
               surf.Y (start_index s k + i + 1) (2 * j),
               surf.Z_top (start_index s k + i + 1) (2 * j))] }]) := by
  refine ⟨fun hstr => ?_, fun hn => ?_, fun label hl => ?_⟩
  · unfold topFaces
    rw [if_pos ⟨hstr, rfl⟩]
    rfl
  · unfold topFaces
    rw [if_neg fun hc => hn hc.1]
  · unfold topFaces
    rw [if_neg fun hc => hl hc.2]

/-- Witness for the Minimum Haunch crossing rule on the straddling
dataset: the first sample pair of the first girder has offsets -2 and 3,
and the Minimum Haunch run emits the two split top quads meeting along
the offset-0 midline. -/
theorem minimum_top_split_witness :
    topFaces c1Surf c1s c1sta c1vc c1odt "Minimum Haunch" 0 0 0 =
      [{ kind := .top, span := 0, beam := 0,
         verts :=
           [(c1Surf.X (start_index c1s 0 + 0) 0,
             c1Surf.Y (start_index c1s 0 + 0) 0,
             c1Surf.Z_top (start_index c1s 0 + 0) 0),
            (c1sta (start_index_pgl c1s 0 + 0), 0,
             c1vc (c1sta (start_index_pgl c1s 0 + 0)) - c1odt / 12),
            (c1sta (start_index_pgl c1s 0 + 0 + 1), 0,
             c1vc (c1sta (start_index_pgl c1s 0 + 0 + 1)) - c1odt / 12),
            (c1Surf.X (start_index c1s 0 + 0 + 1) 0,
             c1Surf.Y (start_index c1s 0 + 0 + 1) 0,
             c1Surf.Z_top (start_index c1s 0 + 0 + 1) 0)] },
       { kind := .top, span := 0, beam := 0,
         verts :=
           [(c1sta (start_index_pgl c1s 0 + 0), 0,
             c1vc (c1sta (start_index_pgl c1s 0 + 0)) - c1odt / 12),
            (c1Surf.X (start_index c1s 0 + 0) 1,
             c1Surf.Y (start_index c1s 0 + 0) 1,
             c1Surf.Z_top (start_index c1s 0 + 0) 1),
            (c1Surf.X (start_index c1s 0 + 0 + 1) 1,
             c1Surf.Y (start_index c1s 0 + 0 + 1) 1,
             c1Surf.Z_top (start_index c1s 0 + 0 + 1) 1),
            (c1sta (start_index_pgl c1s 0 + 0 + 1), 0,
             c1vc (c1sta (start_index_pgl c1s 0 + 0 + 1)) - c1odt / 12)] }] :=
  (minimum_top_split c1Surf c1s c1sta c1vc c1odt 0 0 0).1 (by decide)

/-- Synthetic two-span, two-girder surface band with strictly positive
offsets everywhere (no straddling). -/
def c3Surf : SurfaceData :=
  { X := fun i _ => (i : ℚ) * 10,
    Y := fun _ j => if j = 0 then 1 else if j = 1 then 2 else if j = 2 then 4 else 5,
    Z_top := fun _ _ => 100,
    Z_bot := fun _ _ => 90 }

/-- Sample count per span for the counting dataset: 5 samples. -/
def c3s : ℕ → ℕ := fun _ => 5

/-- Untrimmed station array for the counting dataset. -/
def c3sta : ℕ → ℚ := fun i => (i : ℚ) * 10

/-- Linear stand-in for the vertical-curve elevation lookup. -/
def c3vc : ℚ → ℚ := fun sta => 200 + sta / 100

/-- Over-deck thickness, inches, for the counting dataset. -/
def c3odt : ℚ := 9

/-- C3 counterexample: on the synthetic 2-span, 2-girder,
5-sample-per-span dataset the one-girder, one-region face multiset is not
3 bottom + 3 top + 3 left + 3 right + 2 cap: discarding the two bearing
samples leaves 3 samples, hence 2 consecutive pairs, and the counts are 2
of each plus 2 caps. -/
theorem haunch_face_count_cex :
    ¬ (((plot_haunch_volume c3Surf 2 2 c3s c3sta c3vc c3odt
          "Minimum Haunch").filter fun f =>
            f.span = 0 ∧ f.beam = 0 ∧ f.kind = FaceKind.bottom).length = 3 ∧
       ((plot_haunch_volume c3Surf 2 2 c3s c3sta c3vc c3odt
          "Minimum Haunch").filter fun f =>
            f.span = 0 ∧ f.beam = 0 ∧ f.kind = FaceKind.top).length = 3 ∧
       ((plot_haunch_volume c3Surf 2 2 c3s c3sta c3vc c3odt
          "Minimum Haunch").filter fun f =>
            f.span = 0 ∧ f.beam = 0 ∧ f.kind = FaceKind.left).length = 3 ∧
       ((plot_haunch_volume c3Surf 2 2 c3s c3sta c3vc c3odt
          "Minimum Haunch").filter fun f =>
            f.span = 0 ∧ f.beam = 0 ∧ f.kind = FaceKind.right).length = 3 ∧
       ((plot_haunch_volume c3Surf 2 2 c3s c3sta c3vc c3odt
          "Minimum Haunch").filter fun f =>
            f.span = 0 ∧ f.beam = 0 ∧ f.kind = FaceKind.cap).length = 2) := by
  decide

/-- C3 amended: on the synthetic 2-span, 2-girder, 5-sample-per-span
dataset, every girder of every span in both haunch regions contributes
exactly 2 bottom + 2 top + 2 left + 2 right + 2 cap = 10 faces (the two
bearing samples are discarded, leaving 3 retained samples and 2
consecutive pairs), and every emitted face is a quadrilateral with 4
vertices, all finite rationals. -/
theorem haunch_face_counts :
    ∀ lab ∈ ["Minimum Haunch", "Variable Haunch"], ∀ k < 2, ∀ j < 2,
      ((plot_haunch_volume c3Surf 2 2 c3s c3sta c3vc c3odt lab).filter
        fun f => f.span = k ∧ f.beam = j ∧ f.kind = FaceKind.bottom).length = 2 ∧
      ((plot_haunch_volume c3Surf 2 2 c3s c3sta c3vc c3odt lab).filter
        fun f => f.span = k ∧ f.beam = j ∧ f.kind = FaceKind.top).length = 2 ∧
      ((plot_haunch_volume c3Surf 2 2 c3s c3sta c3vc c3odt lab).filter
        fun f => f.span = k ∧ f.beam = j ∧ f.kind = FaceKind.left).length = 2 ∧
      ((plot_haunch_volume c3Surf 2 2 c3s c3sta c3vc c3odt lab).filter
        fun f => f.span = k ∧ f.beam = j ∧ f.kind = FaceKind.right).length = 2 ∧
      ((plot_haunch_volume c3Surf 2 2 c3s c3sta c3vc c3odt lab).filter
        fun f => f.span = k ∧ f.beam = j ∧ f.kind = FaceKind.cap).length = 2 ∧
      ∀ f ∈ plot_haunch_volume c3Surf 2 2 c3s c3sta c3vc c3odt lab,
        f.verts.length = 4 := by
  decide

/-- Witness for the face counts at span 0, girder 0 of the Minimum Haunch
region. -/
theorem haunch_face_counts_witness :
    ((plot_haunch_volume c3Surf 2 2 c3s c3sta c3vc c3odt
        "Minimum Haunch").filter fun f =>
          f.span = 0 ∧ f.beam = 0 ∧ f.kind = FaceKind.bottom).length = 2 ∧
    ((plot_haunch_volume c3Surf 2 2 c3s c3sta c3vc c3odt
        "Minimum Haunch").filter fun f =>
          f.span = 0 ∧ f.beam = 0 ∧ f.kind = FaceKind.top).length = 2 ∧
    ((plot_haunch_volume c3Surf 2 2 c3s c3sta c3vc c3odt
        "Minimum Haunch").filter fun f =>
          f.span = 0 ∧ f.beam = 0 ∧ f.kind = FaceKind.left).length = 2 ∧
    ((plot_haunch_volume c3Surf 2 2 c3s c3sta c3vc c3odt
        "Minimum Haunch").filter fun f =>
          f.span = 0 ∧ f.beam = 0 ∧ f.kind = FaceKind.right).length = 2 ∧
    ((plot_haunch_volume c3Surf 2 2 c3s c3sta c3vc c3odt
        "Minimum Haunch").filter fun f =>
          f.span = 0 ∧ f.beam = 0 ∧ f.kind = FaceKind.cap).length = 2 ∧
    ∀ f ∈ plot_haunch_volume c3Surf 2 2 c3s c3sta c3vc c3odt "Minimum Haunch",
      f.verts.length = 4 :=
  haunch_face_counts "Minimum Haunch" (by decide) 0 (by decide) 0 (by decide)

/-- C2 counterexample: for a flange with near edge at PGL_loc - 1 = 20 and
far edge at PGL_loc + 1 = 22 (PGL_loc = 21, flange width 2 ft), the
deck-bottom polyline has no vertex at x = PGL_loc * 12 = 252: the notch is
not clipped at PGL_loc; its floor spans the full flange width from 240 to
264 inches.  Drawing parameters x_begin = 0, y_begin_deck = 0,
cx_scale = 1, cant_len = 21, beam_spa = 35/4, deck_width = 42, slope
1/50, one beam. -/
theorem deck_notch_not_clipped_cex :
    ((20 : ℚ) < 21 ∧ (21 : ℚ) < 22) ∧
    ∀ p ∈ deck_bottom_profile 0 0 1 21 (35/4) 2 21 (1/50) 42 1,
      p.1 ≠ 21 * 12 := by
  refine ⟨by norm_num, fun p hp => ?_⟩
  norm_num [deck_bottom_profile, deck_bottom_beam_pts, List.range_succ] at hp
  rcases hp with h | h | h | h | h | h | h <;>
    first
    | (rw [h]; norm_num)
    | norm_num

/-- C2 amended: when a flange near edge lies below PGL_loc and its far
edge beyond it, the notch is not clipped at PGL_loc; the emitted points
are the notch floor spanning the full flange width at one inch below the
near-edge elevation computed with the near-side slope, and a closing wall
at the far edge whose elevation is (PGL_loc - tf_width / 2) * 12 * slope;
for a flange centered on PGL_loc (near edge at PGL_loc - tf_width / 2)
that far-wall elevation equals the near-edge elevation from the near-side
slope, not a blend of the two slopes. -/
theorem deck_notch_full_flange (x_begin ybd scale cant spa tf PGL slope : ℚ)
    (i : ℕ) (h1 : cant + i * spa - tf / 2 < PGL)
    (h2 : PGL < cant + i * spa - tf / 2 + tf) :
    deck_bottom_beam_pts x_begin ybd scale cant spa tf PGL slope i =
      [(x_begin + scale * ((cant + i * spa - tf / 2) * 12),
        ybd + scale * ((cant + i * spa - tf / 2) * 12 * slope)),
       (x_begin + scale * ((cant + i * spa - tf / 2) * 12),
        ybd + scale * ((cant + i * spa - tf / 2) * 12 * slope - 1)),
       (x_begin + scale * ((cant + i * spa - tf / 2 + tf) * 12),
        ybd + scale * ((cant + i * spa - tf / 2) * 12 * slope - 1)),
       (x_begin + scale * ((cant + i * spa - tf / 2 + tf) * 12),
        ybd + scale * ((PGL - tf / 2) * 12 * slope))] ∧
    (cant + i * spa - tf / 2 = PGL - tf / 2 →
      (PGL - tf / 2) * 12 * slope =
        (cant + i * spa - tf / 2) * 12 * slope) := by
  constructor
  · simp only [deck_bottom_beam_pts]
    rw [if_pos h1, if_pos h2]
    rfl
  · intro hc
    rw [hc]

/-- Witness for the crossing-flange notch at the concrete symmetric
flange: near edge 20, far edge 22 about PGL_loc 21 with flange width
2 ft. -/
theorem deck_notch_full_flange_witness :
    deck_bottom_beam_pts 0 0 1 21 (35/4) 2 21 (1/50) 0 =
      [(0 + 1 * ((21 + ((0 : ℕ) : ℚ) * (35/4) - 2 / 2) * 12),
        0 + 1 * ((21 + ((0 : ℕ) : ℚ) * (35/4) - 2 / 2) * 12 * (1/50))),
       (0 + 1 * ((21 + ((0 : ℕ) : ℚ) * (35/4) - 2 / 2) * 12),
        0 + 1 * ((21 + ((0 : ℕ) : ℚ) * (35/4) - 2 / 2) * 12 * (1/50) - 1)),
       (0 + 1 * ((21 + ((0 : ℕ) : ℚ) * (35/4) - 2 / 2 + 2) * 12),
        0 + 1 * ((21 + ((0 : ℕ) : ℚ) * (35/4) - 2 / 2) * 12 * (1/50) - 1)),
       (0 + 1 * ((21 + ((0 : ℕ) : ℚ) * (35/4) - 2 / 2 + 2) * 12),
        0 + 1 * ((21 - 2 / 2) * 12 * (1/50)))] ∧
    ((21 : ℚ) + ((0 : ℕ) : ℚ) * (35/4) - 2 / 2 = 21 - 2 / 2 →
      ((21 : ℚ) - 2 / 2) * 12 * (1/50) =
        (21 + ((0 : ℕ) : ℚ) * (35/4) - 2 / 2) * 12 * (1/50)) :=
  deck_notch_full_flange 0 0 1 21 (35/4) 2 21 (1/50) 0
    (by norm_num) (by norm_num)

/-! ## Fillet geometry lemmas -/

/-- The bottom-flange slope angle is strictly between 0 and pi / 2. -/
theorem theta_bot_mem : 0 < theta_bot ∧ theta_bot < Real.pi / 2 := by
  refine ⟨?_, Real.arctan_lt_pi_div_two _⟩
  have h : (0 : ℝ) < 5.5 / (38.375 / 2 - (5 + 15 / 16) / 2) := by norm_num
  have := Real.arctan_strictMono h
  rwa [Real.arctan_zero] at this

/-- The top-flange slope angle is strictly between 0 and pi / 2. -/
theorem theta_top_mem : 0 < theta_top ∧ theta_top < Real.pi / 2 := by
  refine ⟨?_, Real.arctan_lt_pi_div_two _⟩
  have h : (0 : ℝ) < 1.75 / (48.25 / 2 - (5 + 15 / 16) / 2) := by norm_num
  have := Real.arctan_strictMono h
  rwa [Real.arctan_zero] at this

/-- For an angle strictly between 0 and pi / 2, the fillet tangent factor
tan (pi / 4 - angle / 2) lies strictly between 0 and 1. -/
theorem tan_quarter_mem {θ : ℝ} (h0 : 0 < θ) (h2 : θ < Real.pi / 2) :
    0 < Real.tan (Real.pi / 4 - θ / 2) ∧ Real.tan (Real.pi / 4 - θ / 2) < 1 := by
  have hpi : (0 : ℝ) < Real.pi := Real.pi_pos
  have ha1 : 0 < Real.pi / 4 - θ / 2 := by linarith
  have ha2 : Real.pi / 4 - θ / 2 < Real.pi / 4 := by linarith
  refine ⟨Real.tan_pos_of_pos_of_lt_pi_div_two ha1 (by linarith), ?_⟩
  calc Real.tan (Real.pi / 4 - θ / 2) < Real.tan (Real.pi / 4) :=
        Real.tan_lt_tan_of_nonneg_of_lt_pi_div_two (le_of_lt ha1) (by linarith) ha2
    _ = 1 := Real.tan_pi_div_four

/-- The bottom-flange tangent offset lies strictly between 0 and 2. -/
theorem d_bot_flng_bounds : 0 < d_bot_flng ∧ d_bot_flng < 2 := by
  obtain ⟨h1, h2⟩ := tan_quarter_mem theta_bot_mem.1 theta_bot_mem.2
  rw [d_bot_flng, R_flng]
  constructor <;> nlinarith

/-- The top-flange tangent offset lies strictly between 0 and 2. -/
theorem d_top_flng_bounds : 0 < d_top_flng ∧ d_top_flng < 2 := by
  obtain ⟨h1, h2⟩ := tan_quarter_mem theta_top_mem.1 theta_top_mem.2
  rw [d_top_flng, R_flng]
  constructor <;> nlinarith

/-- The bottom stem tangent offset lies strictly between 0 and 7.875. -/
theorem d_bot_stem_bounds : 0 < d_bot_stem ∧ d_bot_stem < 7.875 := by
  obtain ⟨h1, h2⟩ := tan_quarter_mem theta_bot_mem.1 theta_bot_mem.2
  rw [d_bot_stem, R_stem]
  constructor <;> nlinarith

/-- The top stem tangent offset lies strictly between 0 and 7.875. -/
theorem d_top_stem_bounds : 0 < d_top_stem ∧ d_top_stem < 7.875 := by
  obtain ⟨h1, h2⟩ := tan_quarter_mem theta_top_mem.1 theta_top_mem.2
  rw [d_top_stem, R_stem]
  constructor <;> nlinarith

/-- Cosine bounds for the bottom-flange slope angle. -/
theorem cos_theta_bot_mem : 0 < Real.cos theta_bot ∧ Real.cos theta_bot ≤ 1 := by
  have hpi : (0 : ℝ) < Real.pi := Real.pi_pos
  exact ⟨Real.cos_pos_of_mem_Ioo ⟨by linarith [theta_bot_mem.1], theta_bot_mem.2⟩,
    Real.cos_le_one _⟩

/-- Cosine bounds for the top-flange slope angle. -/
theorem cos_theta_top_mem : 0 < Real.cos theta_top ∧ Real.cos theta_top ≤ 1 := by
  have hpi : (0 : ℝ) < Real.pi := Real.pi_pos
  exact ⟨Real.cos_pos_of_mem_Ioo ⟨by linarith [theta_top_mem.1], theta_top_mem.2⟩,
    Real.cos_le_one _⟩

/-- A point whose horizontal distance from a center squares to t ^ 2 with
0 ≤ t ≤ R, and whose vertical coordinate is the center ordinate plus or
minus sqrt (R ^ 2 - t ^ 2), lies exactly on the circle of radius R. -/
theorem circle_pt (R yref t x cx y : ℝ) (ht0 : 0 ≤ t) (htR : t ≤ R)
    (hx : (x - cx) ^ 2 = t ^ 2)
    (hy : y = yref + Real.sqrt (R ^ 2 - t ^ 2) ∨
          y = yref - Real.sqrt (R ^ 2 - t ^ 2)) :
    (x - cx) ^ 2 + (y - yref) ^ 2 = R ^ 2 := by
  have hnn : 0 ≤ R ^ 2 - t ^ 2 := by nlinarith
  have hs : Real.sqrt (R ^ 2 - t ^ 2) ^ 2 = R ^ 2 - t ^ 2 := Real.sq_sqrt hnn
  rcases hy with h | h <;> rw [hx, h] <;> linear_combination hs

/-- The square root of R ^ 2 - t ^ 2 never exceeds R when R is
nonnegative. -/
theorem sqrt_sub_sq_le (R t : ℝ) (hR : 0 ≤ R) : Real.sqrt (R ^ 2 - t ^ 2) ≤ R := by
  calc Real.sqrt (R ^ 2 - t ^ 2) ≤ Real.sqrt (R ^ 2) :=
        Real.sqrt_le_sqrt (by nlinarith [sq_nonneg t])
    _ = R := Real.sqrt_sq hR

/-- Exact distance R rewritten as the 1e-9 tolerance bound of the
specification. -/
theorem sqrt_dist_le {x2 : ℝ} (R : ℝ) (hR : 0 ≤ R) (h : x2 = R ^ 2) :
    |Real.sqrt x2 - R| ≤ 1e-9 := by
  rw [h, Real.sqrt_sq hR, sub_self, abs_zero]
  norm_num

/-- Every sample of the bottom-left flange arc lies exactly on the circle
of radius R_flng centered at (nu_x1 tf + R_flng, 5 + 5/16 - d_bot_flng). -/
theorem arc_bot_lt_flng_on_circle (tf : ℝ) :
    ∀ p ∈ arc_bot_lt_flng tf,
      (p.1 - (nu_x1 tf + R_flng)) ^ 2 +
        (p.2 - (5 + 5 / 16 - d_bot_flng)) ^ 2 = R_flng ^ 2 := by
  intro p hp
  simp only [arc_bot_lt_flng, List.mem_map, List.mem_range] at hp
  obtain ⟨i, hi, rfl⟩ := hp
  have hi49 : (i : ℝ) ≤ 49 := by exact_mod_cast Nat.lt_succ_iff.mp hi
  have hi0 : (0 : ℝ) ≤ (i : ℝ) := Nat.cast_nonneg i
  obtain ⟨hd0, hd2⟩ := d_bot_flng_bounds
  obtain ⟨hc0, hc1⟩ := cos_theta_bot_mem
  have hdc0 : 0 ≤ d_bot_flng * Real.cos theta_bot := by positivity
  have hd1 : d_bot_flng * Real.cos theta_bot ≤ d_bot_flng * 1 :=
    mul_le_mul_of_nonneg_left hc1 (le_of_lt hd0)
  rw [mul_one] at hd1
  have hmul : (i : ℝ) * (d_bot_flng * Real.cos theta_bot) ≤ 49 * 2 :=
    mul_le_mul hi49 (by linarith) hdc0 (by norm_num)
  have hge : 0 ≤ (i : ℝ) * (d_bot_flng * Real.cos theta_bot) :=
    mul_nonneg hi0 hdc0
  apply circle_pt R_flng (5 + 5 / 16 - d_bot_flng)
      (R_flng - (i : ℝ) * (d_bot_flng * Real.cos theta_bot) / 49)
  · rw [R_flng]
    linarith
  · rw [R_flng]
    linarith
  · simp only [linspace50]
    ring
  · left
    simp only [linspace50]
    congr 2
    ring

/-- Every sample of the bottom-left stem arc lies exactly on its fillet circle. -/
theorem arc_bot_lt_stem_on_circle (tf : ℝ) :
    ∀ p ∈ arc_bot_lt_stem tf,
      (p.1 - (tf / 2 - thick_w / 2 - R_stem)) ^ 2 + (p.2 - (5.5 + 5 + 5 / 16 + d_bot_stem)) ^ 2 = R_stem ^ 2 := by
  intro p hp
  simp only [arc_bot_lt_stem, List.mem_map, List.mem_range] at hp
  obtain ⟨i, hi, rfl⟩ := hp
  have hi49 : (i : ℝ) ≤ 49 := by exact_mod_cast Nat.lt_succ_iff.mp hi
  have hi0 : (0 : ℝ) ≤ (i : ℝ) := Nat.cast_nonneg i
  obtain ⟨hd0, hd2⟩ := d_bot_stem_bounds
  obtain ⟨hc0, hc1⟩ := cos_theta_bot_mem
  have hdc0 : 0 ≤ d_bot_stem * Real.cos theta_bot := by positivity
  have hd1 : d_bot_stem * Real.cos theta_bot ≤ d_bot_stem * 1 :=
    mul_le_mul_of_nonneg_left hc1 (le_of_lt hd0)
  rw [mul_one] at hd1
  have hmul : (49 - (i : ℝ)) * (d_bot_stem * Real.cos theta_bot) ≤ 49 * 7.875 :=
    mul_le_mul (by linarith : (49 : ℝ) - (i : ℝ) ≤ 49) (by linarith) hdc0 (by norm_num)
  have hge : 0 ≤ (49 - (i : ℝ)) * (d_bot_stem * Real.cos theta_bot) :=
    mul_nonneg (by linarith : (0 : ℝ) ≤ 49 - (i : ℝ)) hdc0
  apply circle_pt R_stem (5.5 + 5 + 5 / 16 + d_bot_stem)
      (R_stem - (49 - (i : ℝ)) * (d_bot_stem * Real.cos theta_bot) / 49)
  · rw [R_stem]
    linarith
  · rw [R_stem]
    linarith
  · simp only [linspace50]
    ring
  · right
    simp only [linspace50]
    congr 2
    ring

/-- Every sample of the top-left stem arc lies exactly on its fillet circle. -/
theorem arc_top_lt_stem_on_circle (ht tf : ℝ) :
    ∀ p ∈ arc_top_lt_stem ht tf,
      (p.1 - (tf / 2 - thick_w / 2 - R_stem)) ^ 2 + (p.2 - (ht - 2 - 9 / 16 - 1.75 - d_top_stem)) ^ 2 = R_stem ^ 2 := by
  intro p hp
  simp only [arc_top_lt_stem, List.mem_map, List.mem_range] at hp
  obtain ⟨i, hi, rfl⟩ := hp
  have hi49 : (i : ℝ) ≤ 49 := by exact_mod_cast Nat.lt_succ_iff.mp hi
  have hi0 : (0 : ℝ) ≤ (i : ℝ) := Nat.cast_nonneg i
  obtain ⟨hd0, hd2⟩ := d_top_stem_bounds
  obtain ⟨hc0, hc1⟩ := cos_theta_top_mem
  have hdc0 : 0 ≤ d_top_stem * Real.cos theta_top := by positivity
  have hd1 : d_top_stem * Real.cos theta_top ≤ d_top_stem * 1 :=
    mul_le_mul_of_nonneg_left hc1 (le_of_lt hd0)
  rw [mul_one] at hd1
  have hmul : (i : ℝ) * (d_top_stem * Real.cos theta_top) ≤ 49 * 7.875 :=
    mul_le_mul hi49 (by linarith) hdc0 (by norm_num)
  have hge : 0 ≤ (i : ℝ) * (d_top_stem * Real.cos theta_top) :=
    mul_nonneg hi0 hdc0
  apply circle_pt R_stem (ht - 2 - 9 / 16 - 1.75 - d_top_stem)
      (R_stem - (i : ℝ) * (d_top_stem * Real.cos theta_top) / 49)
  · rw [R_stem]
    linarith
  · rw [R_stem]
    linarith
  · simp only [linspace50]
    ring
  · left
    simp only [linspace50]
    congr 2
    ring

/-- Every sample of the top-left flange arc lies exactly on its fillet circle. -/
theorem arc_top_lt_flng_on_circle (ht : ℝ) :
    ∀ p ∈ arc_top_lt_flng ht,
      (p.1 - R_flng) ^ 2 + (p.2 - (ht - (2 + 9 / 16 - d_top_flng))) ^ 2 = R_flng ^ 2 := by
  intro p hp
  simp only [arc_top_lt_flng, List.mem_map, List.mem_range] at hp
  obtain ⟨i, hi, rfl⟩ := hp
  have hi49 : (i : ℝ) ≤ 49 := by exact_mod_cast Nat.lt_succ_iff.mp hi
  have hi0 : (0 : ℝ) ≤ (i : ℝ) := Nat.cast_nonneg i
  obtain ⟨hd0, hd2⟩ := d_top_flng_bounds
  obtain ⟨hc0, hc1⟩ := cos_theta_top_mem
  have hdc0 : 0 ≤ d_top_flng * Real.cos theta_top := by positivity
  have hd1 : d_top_flng * Real.cos theta_top ≤ d_top_flng * 1 :=
    mul_le_mul_of_nonneg_left hc1 (le_of_lt hd0)
  rw [mul_one] at hd1
  have hmul : (49 - (i : ℝ)) * (d_top_flng * Real.cos theta_top) ≤ 49 * 2 :=
    mul_le_mul (by linarith : (49 : ℝ) - (i : ℝ) ≤ 49) (by linarith) hdc0 (by norm_num)
  have hge : 0 ≤ (49 - (i : ℝ)) * (d_top_flng * Real.cos theta_top) :=
    mul_nonneg (by linarith : (0 : ℝ) ≤ 49 - (i : ℝ)) hdc0
  apply circle_pt R_flng (ht - (2 + 9 / 16 - d_top_flng))
      (R_flng - (49 - (i : ℝ)) * (d_top_flng * Real.cos theta_top) / 49)
  · rw [R_flng]
    linarith
  · rw [R_flng]
    linarith
  · simp only [linspace50]
    ring
  · right
    simp only [linspace50]
    congr 2
    ring

/-- Every sample of the top-right flange arc lies exactly on its fillet circle. -/
theorem arc_top_rt_flng_on_circle (ht tf : ℝ) :
    ∀ p ∈ arc_top_rt_flng ht tf,
      (p.1 - (tf - R_flng)) ^ 2 + (p.2 - (ht - (2 + 9 / 16 - d_top_flng))) ^ 2 = R_flng ^ 2 := by
  intro p hp
  simp only [arc_top_rt_flng, List.mem_map, List.mem_range] at hp
  obtain ⟨i, hi, rfl⟩ := hp
  have hi49 : (i : ℝ) ≤ 49 := by exact_mod_cast Nat.lt_succ_iff.mp hi
  have hi0 : (0 : ℝ) ≤ (i : ℝ) := Nat.cast_nonneg i
  obtain ⟨hd0, hd2⟩ := d_top_flng_bounds
  obtain ⟨hc0, hc1⟩ := cos_theta_top_mem
  have hdc0 : 0 ≤ d_top_flng * Real.cos theta_top := by positivity
  have hd1 : d_top_flng * Real.cos theta_top ≤ d_top_flng * 1 :=
    mul_le_mul_of_nonneg_left hc1 (le_of_lt hd0)
  rw [mul_one] at hd1
  have hmul : (i : ℝ) * (d_top_flng * Real.cos theta_top) ≤ 49 * 2 :=
    mul_le_mul hi49 (by linarith) hdc0 (by norm_num)
  have hge : 0 ≤ (i : ℝ) * (d_top_flng * Real.cos theta_top) :=
    mul_nonneg hi0 hdc0
  apply circle_pt R_flng (ht - (2 + 9 / 16 - d_top_flng))
      (R_flng - (i : ℝ) * (d_top_flng * Real.cos theta_top) / 49)
  · rw [R_flng]
    linarith
  · rw [R_flng]
    linarith
  · simp only [linspace50]
    ring
  · right
    simp only [linspace50]
    congr 2
    ring

/-- Every sample of the top-right stem arc lies exactly on its fillet circle. -/
theorem arc_top_rt_stem_on_circle (ht tf : ℝ) :
    ∀ p ∈ arc_top_rt_stem ht tf,
      (p.1 - (tf / 2 + thick_w / 2 + R_stem)) ^ 2 + (p.2 - (ht - (2 + 9 / 16 + 1.75 + d_top_stem))) ^ 2 = R_stem ^ 2 := by
  intro p hp
  simp only [arc_top_rt_stem, List.mem_map, List.mem_range] at hp
  obtain ⟨i, hi, rfl⟩ := hp
  have hi49 : (i : ℝ) ≤ 49 := by exact_mod_cast Nat.lt_succ_iff.mp hi
  have hi0 : (0 : ℝ) ≤ (i : ℝ) := Nat.cast_nonneg i
  obtain ⟨hd0, hd2⟩ := d_top_stem_bounds
  obtain ⟨hc0, hc1⟩ := cos_theta_top_mem
  have hdc0 : 0 ≤ d_top_stem * Real.cos theta_top := by positivity
  have hd1 : d_top_stem * Real.cos theta_top ≤ d_top_stem * 1 :=
    mul_le_mul_of_nonneg_left hc1 (le_of_lt hd0)
  rw [mul_one] at hd1
  have hmul : (49 - (i : ℝ)) * (d_top_stem * Real.cos theta_top) ≤ 49 * 7.875 :=
    mul_le_mul (by linarith : (49 : ℝ) - (i : ℝ) ≤ 49) (by linarith) hdc0 (by norm_num)
  have hge : 0 ≤ (49 - (i : ℝ)) * (d_top_stem * Real.cos theta_top) :=
    mul_nonneg (by linarith : (0 : ℝ) ≤ 49 - (i : ℝ)) hdc0
  apply circle_pt R_stem (ht - (2 + 9 / 16 + 1.75 + d_top_stem))
      (R_stem - (49 - (i : ℝ)) * (d_top_stem * Real.cos theta_top) / 49)
  · rw [R_stem]
    linarith
  · rw [R_stem]
    linarith
  · simp only [linspace50]
    ring
  · left
    simp only [linspace50]
    congr 2
    ring

/-- Every sample of the bottom-right stem arc lies exactly on its fillet circle. -/
theorem arc_bot_rt_stem_on_circle (tf : ℝ) :
    ∀ p ∈ arc_bot_rt_stem tf,
      (p.1 - (tf / 2 + thick_w / 2 + R_stem)) ^ 2 + (p.2 - (5.5 + 5 + 5 / 16 + d_bot_stem)) ^ 2 = R_stem ^ 2 := by
  intro p hp
  simp only [arc_bot_rt_stem, List.mem_map, List.mem_range] at hp
  obtain ⟨i, hi, rfl⟩ := hp
  have hi49 : (i : ℝ) ≤ 49 := by exact_mod_cast Nat.lt_succ_iff.mp hi
  have hi0 : (0 : ℝ) ≤ (i : ℝ) := Nat.cast_nonneg i
  obtain ⟨hd0, hd2⟩ := d_bot_stem_bounds
  obtain ⟨hc0, hc1⟩ := cos_theta_bot_mem
  have hdc0 : 0 ≤ d_bot_stem * Real.cos theta_bot := by positivity
  have hd1 : d_bot_stem * Real.cos theta_bot ≤ d_bot_stem * 1 :=
    mul_le_mul_of_nonneg_left hc1 (le_of_lt hd0)
  rw [mul_one] at hd1
  have hmul : (i : ℝ) * (d_bot_stem * Real.cos theta_bot) ≤ 49 * 7.875 :=
    mul_le_mul hi49 (by linarith) hdc0 (by norm_num)
  have hge : 0 ≤ (i : ℝ) * (d_bot_stem * Real.cos theta_bot) :=
    mul_nonneg hi0 hdc0
  apply circle_pt R_stem (5.5 + 5 + 5 / 16 + d_bot_stem)
      (R_stem - (i : ℝ) * (d_bot_stem * Real.cos theta_bot) / 49)
  · rw [R_stem]
    linarith
  · rw [R_stem]
    linarith
  · simp only [linspace50]
    ring
  · right
    simp only [linspace50]
    congr 2
    ring

/-- Every sample of the bottom-right flange arc lies exactly on its fillet circle. -/
theorem arc_bot_rt_flng_on_circle (tf : ℝ) :
    ∀ p ∈ arc_bot_rt_flng tf,
      (p.1 - (tf / 2 + bf_width / 2 - R_flng)) ^ 2 + (p.2 - (5 + 5 / 16 - d_bot_flng)) ^ 2 = R_flng ^ 2 := by
  intro p hp
  simp only [arc_bot_rt_flng, List.mem_map, List.mem_range] at hp
  obtain ⟨i, hi, rfl⟩ := hp
  have hi49 : (i : ℝ) ≤ 49 := by exact_mod_cast Nat.lt_succ_iff.mp hi
  have hi0 : (0 : ℝ) ≤ (i : ℝ) := Nat.cast_nonneg i
  obtain ⟨hd0, hd2⟩ := d_bot_flng_bounds
  obtain ⟨hc0, hc1⟩ := cos_theta_bot_mem
  have hdc0 : 0 ≤ d_bot_flng * Real.cos theta_bot := by positivity
  have hd1 : d_bot_flng * Real.cos theta_bot ≤ d_bot_flng * 1 :=
    mul_le_mul_of_nonneg_left hc1 (le_of_lt hd0)
  rw [mul_one] at hd1
  have hmul : (49 - (i : ℝ)) * (d_bot_flng * Real.cos theta_bot) ≤ 49 * 2 :=
    mul_le_mul (by linarith : (49 : ℝ) - (i : ℝ) ≤ 49) (by linarith) hdc0 (by norm_num)
  have hge : 0 ≤ (49 - (i : ℝ)) * (d_bot_flng * Real.cos theta_bot) :=
    mul_nonneg (by linarith : (0 : ℝ) ≤ 49 - (i : ℝ)) hdc0
  apply circle_pt R_flng (5 + 5 / 16 - d_bot_flng)
      (R_flng - (49 - (i : ℝ)) * (d_bot_flng * Real.cos theta_bot) / 49)
  · rw [R_flng]
    linarith
  · rw [R_flng]
    linarith
  · simp only [linspace50]
    ring
  · left
    simp only [linspace50]
    congr 2
    ring

/-- C6: every fillet tangent offset of the NU cross-section equals
R * tan (pi / 4 - theta / 2) for its region's half-angle theta and radius
R, and every sampled arc point of each of the eight fillet arcs lies
within 1e-9 of distance R from its computed arc center (in fact exactly at
distance R). -/
theorem fillet_arcs_on_circles (ht tf : ℝ) :
    d_bot_flng = R_flng * Real.tan (Real.pi / 4 - theta_bot / 2) ∧
    d_top_flng = R_flng * Real.tan (Real.pi / 4 - theta_top / 2) ∧
    d_bot_stem = R_stem * Real.tan (Real.pi / 4 - theta_bot / 2) ∧
    d_top_stem = R_stem * Real.tan (Real.pi / 4 - theta_top / 2) ∧
    (∀ p ∈ arc_bot_lt_flng tf,
      |Real.sqrt ((p.1 - (nu_x1 tf + R_flng)) ^ 2 +
        (p.2 - (5 + 5 / 16 - d_bot_flng)) ^ 2) - R_flng| ≤ 1e-9) ∧
    (∀ p ∈ arc_bot_lt_stem tf,
      |Real.sqrt ((p.1 - (tf / 2 - thick_w / 2 - R_stem)) ^ 2 +
        (p.2 - (5.5 + 5 + 5 / 16 + d_bot_stem)) ^ 2) - R_stem| ≤ 1e-9) ∧
    (∀ p ∈ arc_top_lt_stem ht tf,
      |Real.sqrt ((p.1 - (tf / 2 - thick_w / 2 - R_stem)) ^ 2 +
        (p.2 - (ht - 2 - 9 / 16 - 1.75 - d_top_stem)) ^ 2) - R_stem| ≤ 1e-9) ∧
    (∀ p ∈ arc_top_lt_flng ht,
      |Real.sqrt ((p.1 - R_flng) ^ 2 +
        (p.2 - (ht - (2 + 9 / 16 - d_top_flng))) ^ 2) - R_flng| ≤ 1e-9) ∧
    (∀ p ∈ arc_top_rt_flng ht tf,
      |Real.sqrt ((p.1 - (tf - R_flng)) ^ 2 +
        (p.2 - (ht - (2 + 9 / 16 - d_top_flng))) ^ 2) - R_flng| ≤ 1e-9) ∧
    (∀ p ∈ arc_top_rt_stem ht tf,
      |Real.sqrt ((p.1 - (tf / 2 + thick_w / 2 + R_stem)) ^ 2 +
        (p.2 - (ht - (2 + 9 / 16 + 1.75 + d_top_stem))) ^ 2) - R_stem| ≤ 1e-9) ∧
    (∀ p ∈ arc_bot_rt_stem tf,
      |Real.sqrt ((p.1 - (tf / 2 + thick_w / 2 + R_stem)) ^ 2 +
        (p.2 - (5.5 + 5 + 5 / 16 + d_bot_stem)) ^ 2) - R_stem| ≤ 1e-9) ∧
    (∀ p ∈ arc_bot_rt_flng tf,
      |Real.sqrt ((p.1 - (tf / 2 + bf_width / 2 - R_flng)) ^ 2 +
        (p.2 - (5 + 5 / 16 - d_bot_flng)) ^ 2) - R_flng| ≤ 1e-9) := by
  refine ⟨rfl, rfl, rfl, rfl, ?_, ?_, ?_, ?_, ?_, ?_, ?_, ?_⟩ <;> intro p hp
  · exact sqrt_dist_le R_flng (by norm_num [R_flng])
      (arc_bot_lt_flng_on_circle tf p hp)
  · exact sqrt_dist_le R_stem (by norm_num [R_stem])
      (arc_bot_lt_stem_on_circle tf p hp)
  · exact sqrt_dist_le R_stem (by norm_num [R_stem])
      (arc_top_lt_stem_on_circle ht tf p hp)
  · exact sqrt_dist_le R_flng (by norm_num [R_flng])
      (arc_top_lt_flng_on_circle ht p hp)
  · exact sqrt_dist_le R_flng (by norm_num [R_flng])
      (arc_top_rt_flng_on_circle ht tf p hp)
  · exact sqrt_dist_le R_stem (by norm_num [R_stem])
      (arc_top_rt_stem_on_circle ht tf p hp)
  · exact sqrt_dist_le R_stem (by norm_num [R_stem])
      (arc_bot_rt_stem_on_circle tf p hp)
  · exact sqrt_dist_le R_flng (by norm_num [R_flng])
      (arc_bot_rt_flng_on_circle tf p hp)

/-- Lower bound on the vertical coordinate of every sample of
arc_bot_lt_flng: the arc stays above its circle center minus the radius. -/
theorem arc_bot_lt_flng_y_lb (tf : ℝ) :
    ∀ q ∈ arc_bot_lt_flng tf, 5 + 5 / 16 - d_bot_flng ≤ q.2 := by
  intro q hq
  simp only [arc_bot_lt_flng, List.mem_map, List.mem_range] at hq
  obtain ⟨i, hi, rfl⟩ := hq
  exact le_add_of_nonneg_right (Real.sqrt_nonneg _)

/-- Lower bound on the vertical coordinate of every sample of
arc_bot_lt_stem: the arc stays above its circle center minus the radius. -/
theorem arc_bot_lt_stem_y_lb (tf : ℝ) :
    ∀ q ∈ arc_bot_lt_stem tf, (5.5 + 5 + 5 / 16 + d_bot_stem) - R_stem ≤ q.2 := by
  intro q hq
  simp only [arc_bot_lt_stem, List.mem_map, List.mem_range] at hq
  obtain ⟨i, hi, rfl⟩ := hq
  exact sub_le_sub_left (sqrt_sub_sq_le R_stem _ (by norm_num [R_stem])) _

/-- Lower bound on the vertical coordinate of every sample of
arc_top_lt_stem: the arc stays above its circle center minus the radius. -/
theorem arc_top_lt_stem_y_lb (ht tf : ℝ) :
    ∀ q ∈ arc_top_lt_stem ht tf, ht - 2 - 9 / 16 - 1.75 - d_top_stem ≤ q.2 := by
  intro q hq
  simp only [arc_top_lt_stem, List.mem_map, List.mem_range] at hq
  obtain ⟨i, hi, rfl⟩ := hq
  exact le_add_of_nonneg_right (Real.sqrt_nonneg _)

/-- Lower bound on the vertical coordinate of every sample of
arc_top_lt_flng: the arc stays above its circle center minus the radius. -/
theorem arc_top_lt_flng_y_lb (ht : ℝ) :
    ∀ q ∈ arc_top_lt_flng ht, (ht - (2 + 9 / 16 - d_top_flng)) - R_flng ≤ q.2 := by
  intro q hq
  simp only [arc_top_lt_flng, List.mem_map, List.mem_range] at hq
  obtain ⟨i, hi, rfl⟩ := hq
  exact sub_le_sub_left (sqrt_sub_sq_le R_flng _ (by norm_num [R_flng])) _

/-- Lower bound on the vertical coordinate of every sample of
arc_top_rt_flng: the arc stays above its circle center minus the radius. -/
theorem arc_top_rt_flng_y_lb (ht tf : ℝ) :
    ∀ q ∈ arc_top_rt_flng ht tf, (ht - (2 + 9 / 16 - d_top_flng)) - R_flng ≤ q.2 := by
  intro q hq
  simp only [arc_top_rt_flng, List.mem_map, List.mem_range] at hq
  obtain ⟨i, hi, rfl⟩ := hq
  exact sub_le_sub_left (sqrt_sub_sq_le R_flng _ (by norm_num [R_flng])) _

/-- Lower bound on the vertical coordinate of every sample of
arc_top_rt_stem: the arc stays above its circle center minus the radius. -/
theorem arc_top_rt_stem_y_lb (ht tf : ℝ) :
    ∀ q ∈ arc_top_rt_stem ht tf, ht - (2 + 9 / 16 + 1.75 + d_top_stem) ≤ q.2 := by
  intro q hq
  simp only [arc_top_rt_stem, List.mem_map, List.mem_range] at hq
  obtain ⟨i, hi, rfl⟩ := hq
  exact le_add_of_nonneg_right (Real.sqrt_nonneg _)

/-- Lower bound on the vertical coordinate of every sample of
arc_bot_rt_stem: the arc stays above its circle center minus the radius. -/
theorem arc_bot_rt_stem_y_lb (tf : ℝ) :
    ∀ q ∈ arc_bot_rt_stem tf, (5.5 + 5 + 5 / 16 + d_bot_stem) - R_stem ≤ q.2 := by
  intro q hq
  simp only [arc_bot_rt_stem, List.mem_map, List.mem_range] at hq
  obtain ⟨i, hi, rfl⟩ := hq
  exact sub_le_sub_left (sqrt_sub_sq_le R_stem _ (by norm_num [R_stem])) _

/-- Lower bound on the vertical coordinate of every sample of
arc_bot_rt_flng: the arc stays above its circle center minus the radius. -/
theorem arc_bot_rt_flng_y_lb (tf : ℝ) :
    ∀ q ∈ arc_bot_rt_flng tf, 5 + 5 / 16 - d_bot_flng ≤ q.2 := by
  intro q hq
  simp only [arc_bot_rt_flng, List.mem_map, List.mem_range] at hq
  obtain ⟨i, hi, rfl⟩ := hq
  exact le_add_of_nonneg_right (Real.sqrt_nonneg _)

/-- On the NU53 cross-section (beam height 53 in, top-flange width
48.25 in), the only polyline points whose vertical coordinate is within
1e-6 of zero are the bottom-left start point at nu_x0 and the bottom-right
chamfer point; every arc sample and every other fixed point sits higher
than the tolerance. -/
theorem nu_bottom_pts :
    ∀ q ∈ create_beam_cx_NU 53 48.25, |q.2| ≤ 1e-6 →
      q.1 = nu_x0 48.25 ∨ q.1 = 48.25 / 2 + bf_width / 2 - champfer := by
  intro q hq hy
  obtain ⟨hbf0, hbf2⟩ := d_bot_flng_bounds
  obtain ⟨htf0, htf2⟩ := d_top_flng_bounds
  obtain ⟨hbs0, hbs2⟩ := d_bot_stem_bounds
  obtain ⟨hts0, hts2⟩ := d_top_stem_bounds
  have hy2 := (abs_le.mp hy).2
  simp only [create_beam_cx_NU, List.mem_append, List.mem_cons,
    List.not_mem_nil, or_false] at hq
  rcases hq with
    ((((((((((h | h | h) | h) | h) | h) | h) | h | h) | h) | h) | h) | h) |
    h | h | h
  · exact Or.inl (by rw [h])
  · rw [h] at hy2
    norm_num [champfer] at hy2
  · rw [h] at hy2
    norm_num at hy2
    linarith
  · have lb := arc_bot_lt_flng_y_lb 48.25 q h
    linarith
  · have lb := arc_bot_lt_stem_y_lb 48.25 q h
    rw [R_stem] at lb
    linarith
  · have lb := arc_top_lt_stem_y_lb 53 48.25 q h
    linarith
  · have lb := arc_top_lt_flng_y_lb 53 q h
    rw [R_flng] at lb
    linarith
  · rw [h] at hy2
    norm_num at hy2
  · rw [h] at hy2
    norm_num at hy2
  · have lb := arc_top_rt_flng_y_lb 53 48.25 q h
    rw [R_flng] at lb
    linarith
  · have lb := arc_top_rt_stem_y_lb 53 48.25 q h
    linarith
  · have lb := arc_bot_rt_stem_y_lb 48.25 q h
    rw [R_stem] at lb
    linarith
  · have lb := arc_bot_rt_flng_y_lb 48.25 q h
    linarith
  · rw [h] at hy2
    norm_num [champfer] at hy2
  · exact Or.inr (by rw [h])
  · exact Or.inl (by rw [h])

/-- C5 (defect in the code): the NU53 cross-section polyline is not
symmetric about its local vertical centerline.  The first polyline point
sits at x = (tf - bf - 2 * chamfer) / 2 = 4.1875 with y = 0, its mirror
about the centerline is at x = 44.0625, but the nearest polyline point at
deck level is the bottom-right chamfer point at x = 42.5625 — off by
2.25 in, far beyond the 1e-6 tolerance.  The bottom-left chamfer is the
slip: the right side places the chamfered bottom corner at
(tf + bf) / 2 - chamfer, whose mirror would be (tf - bf) / 2 + chamfer,
not (tf - bf) / 2 - chamfer. -/
theorem nu_profile_not_symmetric :
    (nu_x0 48.25, (0 : ℝ)) ∈ create_beam_cx_NU 53 48.25 ∧
    ¬ ∃ q ∈ create_beam_cx_NU 53 48.25,
        |q.1 - (48.25 - nu_x0 48.25)| ≤ 1e-6 ∧ |q.2 - 0| ≤ 1e-6 := by
  constructor
  · simp [create_beam_cx_NU]
  · rintro ⟨q, hq, hx, hy⟩
    rw [sub_zero] at hy
    rcases nu_bottom_pts q hq hy with h | h <;> rw [h] at hx <;>
      rw [abs_le] at hx
    · norm_num [nu_x0, bf_width, champfer] at hx
    · norm_num [nu_x0, bf_width, champfer] at hx

/-- Witness for the band separation on concrete constant elevation
sheets BS = 7, Min = 5, TG = 3 at sample (0, 0). -/
theorem haunch_bands_separated_witness :
    (create_haunch_surfaces (fun _ _ => 0) (fun _ => 0) (fun _ _ => 7)
        (fun _ _ => 5) (fun _ _ => 3)).minimum_haunch.Z_top 0 0 =
      (fun _ _ => (7 : ℚ)) 0 0 ∧
    (create_haunch_surfaces (fun _ _ => 0) (fun _ => 0) (fun _ _ => 7)
        (fun _ _ => 5) (fun _ _ => 3)).minimum_haunch.Z_bot 0 0 =
      (fun _ _ => (5 : ℚ)) 0 0 + 0.0005 ∧
    (create_haunch_surfaces (fun _ _ => 0) (fun _ => 0) (fun _ _ => 7)
        (fun _ _ => 5) (fun _ _ => 3)).variable_haunch.Z_top 0 0 =
      (fun _ _ => (5 : ℚ)) 0 0 - 0.0005 ∧
    (create_haunch_surfaces (fun _ _ => 0) (fun _ => 0) (fun _ _ => 7)
        (fun _ _ => 5) (fun _ _ => 3)).variable_haunch.Z_bot 0 0 =
      (fun _ _ => (3 : ℚ)) 0 0 ∧
    (create_haunch_surfaces (fun _ _ => 0) (fun _ => 0) (fun _ _ => 7)
        (fun _ _ => 5) (fun _ _ => 3)).minimum_haunch.Z_bot 0 0 -
      (create_haunch_surfaces (fun _ _ => 0) (fun _ => 0) (fun _ _ => 7)
        (fun _ _ => 5) (fun _ _ => 3)).variable_haunch.Z_top 0 0 = 0.001 ∧
    (create_haunch_surfaces (fun _ _ => 0) (fun _ => 0) (fun _ _ => 7)
        (fun _ _ => 5) (fun _ _ => 3)).minimum_haunch.Z_bot 0 0 ≠
      (create_haunch_surfaces (fun _ _ => 0) (fun _ => 0) (fun _ _ => 7)
        (fun _ _ => 5) (fun _ _ => 3)).variable_haunch.Z_top 0 0 :=
  haunch_bands_separated (fun _ _ => 0) (fun _ => 0) (fun _ _ => 7)
    (fun _ _ => 5) (fun _ _ => 3) 0 0

/-- Witness for the fillet arc property: the first sample point of the
bottom-left flange arc of the NU53 shape lies within 1e-9 of distance
R_flng from the computed arc center. -/
theorem fillet_arcs_on_circles_witness :
    |Real.sqrt
        (((linspace50 (nu_x1 48.25)
            (nu_x1 48.25 + d_bot_flng * Real.cos theta_bot) 0,
           (5 + 5 / 16 - d_bot_flng) +
             Real.sqrt (R_flng ^ 2 -
               (R_flng - (linspace50 (nu_x1 48.25)
                 (nu_x1 48.25 + d_bot_flng * Real.cos theta_bot) 0 -
                   nu_x1 48.25)) ^ 2)).1 - (nu_x1 48.25 + R_flng)) ^ 2 +
         ((linspace50 (nu_x1 48.25)
            (nu_x1 48.25 + d_bot_flng * Real.cos theta_bot) 0,
           (5 + 5 / 16 - d_bot_flng) +
             Real.sqrt (R_flng ^ 2 -
               (R_flng - (linspace50 (nu_x1 48.25)
                 (nu_x1 48.25 + d_bot_flng * Real.cos theta_bot) 0 -
                   nu_x1 48.25)) ^ 2)).2 -
           (5 + 5 / 16 - d_bot_flng)) ^ 2) - R_flng| ≤ 1e-9 :=
  (fillet_arcs_on_circles 53 48.25).2.2.2.2.1 _
    (List.mem_map.mpr ⟨0, List.mem_range.mpr (by norm_num), rfl⟩)

end BridgeSpec
